import Mathlib

/-!
Verification development for the CSS/HTML heuristic scoring engine of the
project-analysis backend.  JavaScript numbers are modelled as `ℚ` (ratios),
`ℤ` (scores, rounded values) and `ℕ` (counters); JavaScript `null`/`undefined`
is modelled with `Option`; objects become structures and `Map`s/`Set`s become
insertion-ordered association lists / deduplicated lists, matching the
insertion-order iteration semantics of JavaScript `Map`/`Set`.
-/

namespace ProjAnalysis

/-- JavaScript `Math.round`: round half toward positive infinity. -/
def jsRound (q : ℚ) : ℤ := ⌊q + 1/2⌋

/-- Model of `parseFloat(x.toFixed(2))` (round to 2 decimal places). -/
def toFixed2 (q : ℚ) : ℚ := (jsRound (q * 100) : ℚ) / 100

/-- Model of `Number(x.toFixed(3))` (round to 3 decimal places). -/
def toFixed3 (q : ℚ) : ℚ := (jsRound (q * 1000) : ℚ) / 1000

/-- The grade thresholds (90/80/70/60), written identically in every analyzer
of the source (colors, variables, imports, images, BEM, validation). -/
def gradeOf (total : ℤ) : String :=
  if total ≥ 90 then "A"
  else if total ≥ 80 then "B"
  else if total ≥ 70 then "C"
  else if total ≥ 60 then "D"
  else "F"

/-- One breakdown criterion `{score, max, details}` of a ScoreResult. -/
structure Criterion where
  score : ℤ
  max : ℤ
  details : String
deriving Repr, DecidableEq

/-! ## Colors analyzer (colorAnalysisService)

The `culori` functions `parse`/`converter("oklch")` are an external library; it is modelled
as an abstract `ColorParser` parameter.  `parseColor` in the source returns
`{l, c, h, alpha}` with `?? 0` / `?? 1` defaults, so every parsed color has
all four numeric components. -/

structure Oklch where
  l : ℚ
  c : ℚ
  h : ℚ
  alpha : ℚ
deriving Repr, DecidableEq

/-- Abstract model of `parseColor` (culori parse + conversion to OKLCH);
`none` models the `null` returned for unparseable literals. -/
abbrev ColorParser := String → Option Oklch

/-- `minHueDiff`: minimal circular difference of two hues.  The
`undefined` guard of the source is unreachable because `parseColor` defaults `h` to `0`. -/
def minHueDiff (h1 h2 : ℚ) : ℚ :=
  let diff := |h1 - h2|
  if diff > 180 then 360 - diff else diff

/-- `areColorsSimilar(color1, color2, lightnessThreshold, chromaThreshold,
hueThreshold)`; the default thresholds of the source are 0.1, 0.06 and 35. -/
def areColorsSimilar (parseColor : ColorParser) (color1 color2 : String)
    (lightnessThreshold chromaThreshold hueThreshold : ℚ) : Bool :=
  match parseColor color1, parseColor color2 with
  | some oklch1, some oklch2 =>
    if oklch1.c < 2/100 ∧ oklch2.c < 2/100 then
      decide (|oklch1.l - oklch2.l| < 7/100)
    else
      decide (|oklch1.l - oklch2.l| < lightnessThreshold ∧
        |oklch1.c - oklch2.c| < chromaThreshold ∧
        minHueDiff oklch1.h oklch2.h < hueThreshold)
  | _, _ => false

/-- `areColorsSimilar` applied at its default thresholds (0.1, 0.06, 35). -/
def areColorsSimilarDefault (parseColor : ColorParser) (c1 c2 : String) : Bool :=
  areColorsSimilar parseColor c1 c2 (1/10) (6/100) 35

/-- `isTransparent`: alpha < 1 when parseable, false otherwise. -/
def isTransparent (parseColor : ColorParser) (color : String) : Bool :=
  match parseColor color with
  | some oklch => decide (oklch.alpha < 1)
  | none => false

/-- A `{color, count}` entry of the color frequency table. -/
structure ColorCount where
  color : String
  count : ℕ
deriving Repr, DecidableEq

/-- A color entry enriched by `detectSimilarColors` with `isSimilar`/`similarTo`. -/
structure SimColor where
  color : String
  count : ℕ
  isSimilar : Bool
  similarTo : List String
deriving Repr, DecidableEq

/-- `detectSimilarColors`: the double loop of the source pushes, for the pair
`i < j` with similar colors, `color_j` onto `similarTo_i` and `color_i` onto
`similarTo_j`, and sets both `isSimilar` flags.  Replaying the loop order,
entry `k` ends with the similar earlier colors (pushed while the outer index
ran below `k`) followed by the similar later colors (pushed at outer index
`k`), and `isSimilar` is true exactly when some other entry is similar. -/
def detectSimilarColors (parseColor : ColorParser) (colors : List ColorCount) :
    List SimColor :=
  colors.enum.map (fun p =>
    let earlier := (colors.enum.filter (fun q =>
      decide (q.1 < p.1) && areColorsSimilarDefault parseColor q.2.color p.2.color)).map
      (fun q => q.2.color)
    let later := (colors.enum.filter (fun q =>
      decide (p.1 < q.1) && areColorsSimilarDefault parseColor p.2.color q.2.color)).map
      (fun q => q.2.color)
    { color := p.2.color, count := p.2.count,
      isSimilar := !(earlier ++ later).isEmpty,
      similarTo := earlier ++ later })

/-- `getHueName`: OKLCH hue-range names. -/
def getHueName (hue : ℤ) : String :=
  if 0 ≤ hue ∧ hue < 40 then "Rouge"
  else if 40 ≤ hue ∧ hue < 80 then "Orange"
  else if 80 ≤ hue ∧ hue < 130 then "Jaune"
  else if 130 ≤ hue ∧ hue < 180 then "Vert"
  else if 180 ≤ hue ∧ hue < 240 then "Cyan"
  else if 240 ≤ hue ∧ hue < 300 then "Bleu"
  else if 300 ≤ hue ∧ hue < 360 then "Magenta/Rose"
  else "Inconnu"

/-- A color together with its parsed OKLCH triple, as stored in hue groups. -/
structure OklchColor where
  color : String
  count : ℕ
  oklch : Oklch
deriving Repr, DecidableEq

/-- One hue group `{hueRange, hueName, colors}`. -/
structure HueGroup where
  hueRange : ℤ
  hueName : String
  colors : List OklchColor
deriving Repr, DecidableEq

/-- Append an item to the group keyed `key`, creating the group at the end
when missing (JavaScript object insertion order). -/
def addToHueGroup (groups : List (ℤ × List OklchColor)) (key : ℤ)
    (item : OklchColor) : List (ℤ × List OklchColor) :=
  if groups.any (fun g => g.1 = key) then
    groups.map (fun g => if g.1 = key then (g.1, g.2 ++ [item]) else g)
  else
    groups ++ [(key, [item])]

/-- Stable insertion into a list of hue groups sorted by ascending `hueRange`
(the `result.sort((a, b) => a.hueRange - b.hueRange)` of the source). -/
def insertHueGroup (g : HueGroup) : List HueGroup → List HueGroup
  | [] => [g]
  | h :: hs => if g.hueRange < h.hueRange then g :: h :: hs
      else h :: insertHueGroup g hs

def sortHueGroups (l : List HueGroup) : List HueGroup :=
  l.foldr insertHueGroup []

/-- `groupColorsByHue` at the only-used hue range size of 40:
unparseable colors are skipped, achromatic colors (chroma < 0.02) go to a
dedicated trailing bucket, the rest are grouped by `Math.floor(h / 40) * 40`
and sorted by ascending hue range. -/
def groupColorsByHue (parseColor : ColorParser) (colors : List ColorCount) :
    List HueGroup :=
  let step := fun (acc : List (ℤ × List OklchColor) × List OklchColor)
      (item : ColorCount) =>
    match parseColor item.color with
    | none => acc
    | some oklch =>
      if oklch.c < 2/100 then
        (acc.1, acc.2 ++ [⟨item.color, item.count, oklch⟩])
      else
        let hueGroup : ℤ := ⌊oklch.h / 40⌋ * 40
        (addToHueGroup acc.1 hueGroup ⟨item.color, item.count, oklch⟩, acc.2)
  let scanned := colors.foldl step ([], [])
  let result := sortHueGroups
    (scanned.1.map (fun g => ⟨g.1, getHueName g.1, g.2⟩))
  if scanned.2.isEmpty then result
  else result ++ [⟨-1, "Achromatique (Gris/Noir/Blanc)", scanned.2⟩]

/-- Substring test on character lists (JavaScript `String.includes`). -/
def listContainsSub (pat : List Char) : List Char → Bool
  | [] => pat.isEmpty
  | c :: cs => pat.isPrefixOf (c :: cs) || listContainsSub pat cs

/-- JavaScript `s.includes(pat)`. -/
def strContains (s pat : String) : Bool := listContainsSub pat.data s.data

/-- Left-to-right non-overlapping split on a nonempty separator, with the
list length as structural fuel (`JavaScript String.prototype.split`). -/
def splitOnCharsFuel (sep : List Char) : ℕ → List Char → List (List Char)
  | _, [] => [[]]
  | 0, l => [l]
  | fuel + 1, c :: cs =>
    if sep.isPrefixOf (c :: cs) && !sep.isEmpty then
      [] :: splitOnCharsFuel sep fuel (cs.drop (sep.length - 1))
    else
      match splitOnCharsFuel sep fuel cs with
      | [] => [[c]]
      | h :: t => (c :: h) :: t

/-- JavaScript `s.split(sep)` for a nonempty plain-string separator. -/
def strSplitOn (s sep : String) : List String :=
  (splitOnCharsFuel sep.data s.data.length s.data).map String.mk

/-- JavaScript `s.toLowerCase()` (ASCII, which covers the scanned syntax). -/
def strToLower (s : String) : String := String.mk (s.data.map Char.toLower)

/-- JavaScript `s.startsWith(pat)`. -/
def strStartsWith (s pat : String) : Bool := pat.data.isPrefixOf s.data

/-- JavaScript `s.trim()`. -/
def strTrim (s : String) : String :=
  String.mk
    (((s.data.dropWhile Char.isWhitespace).reverse.dropWhile
      Char.isWhitespace).reverse)

/-- JavaScript `s.length` (code points; identical on the Latin text scanned). -/
def charLen (s : String) : ℕ := s.data.length

/-- Syntax-family counters for color literals.  In the source `formats` is an
object whose keys appear only once seen, so "key present" is "count > 0";
the JavaScript key `variable` is the field `varFmt` here. -/
structure ColorFormats where
  hex : ℕ
  rgb : ℕ
  hsl : ℕ
  oklch : ℕ
  varFmt : ℕ
  transparent : ℕ
  named : ℕ
deriving Repr, DecidableEq

/-- `Object.keys(formats).length`: number of syntax families seen. -/
def formatCountOf (f : ColorFormats) : ℕ :=
  (if f.hex > 0 then 1 else 0) + (if f.rgb > 0 then 1 else 0) +
  (if f.hsl > 0 then 1 else 0) + (if f.oklch > 0 then 1 else 0) +
  (if f.varFmt > 0 then 1 else 0) + (if f.transparent > 0 then 1 else 0) +
  (if f.named > 0 then 1 else 0)

/-- The format-detection scan of `analyzeColors`. -/
def detectFormats (colors : List ColorCount) : ColorFormats :=
  colors.foldl (fun f item =>
    let trimmed := strToLower (strTrim item.color)
    if trimmed = "transparent" then { f with transparent := f.transparent + 1 }
    else if strStartsWith trimmed "#" then { f with hex := f.hex + 1 }
    else if strStartsWith trimmed "rgb" then { f with rgb := f.rgb + 1 }
    else if strStartsWith trimmed "hsl" then { f with hsl := f.hsl + 1 }
    else if strStartsWith trimmed "oklch" then { f with oklch := f.oklch + 1 }
    else if strContains trimmed "var(" then { f with varFmt := f.varFmt + 1 }
    else { f with named := f.named + 1 }) ⟨0, 0, 0, 0, 0, 0, 0⟩

/-- The data object handed to `calculateColorsScore` by `analyzeColors`. -/
structure ColorsScoreData where
  totalColors : ℕ
  uniqueColors : ℕ
  transparentColors : List ColorCount
  opaqueColors : List SimColor
  similarColorsCount : ℕ
  colorGroups : List HueGroup
  formats : ColorFormats
deriving Repr, DecidableEq

/-- Palette criterion (30 points), sweet spot 8-15 unique colors. -/
def colorsPaletteCriterion (uniqueColors : ℕ) : Criterion :=
  if 8 ≤ uniqueColors ∧ uniqueColors ≤ 15 then
    ⟨30, 30, "Palette de couleurs optimale. "⟩
  else if 5 ≤ uniqueColors ∧ uniqueColors < 8 then
    ⟨25, 30, "Palette limitée mais acceptable. "⟩
  else if 16 ≤ uniqueColors ∧ uniqueColors ≤ 20 then
    ⟨20, 30, "Palette un peu large. "⟩
  else if 20 < uniqueColors then ⟨10, 30, "Trop de couleurs différentes. "⟩
  else ⟨15, 30, "Palette très limitée. "⟩

/-- Consistency criterion (25 points), penalizing the similar-color ratio. -/
def colorsConsistencyCriterion (similarityRatio : ℚ) : Criterion :=
  if similarityRatio = 0 then ⟨25, 25, "Aucune couleur similaire détectée. "⟩
  else if similarityRatio < 1/5 then ⟨20, 25, "Quelques couleurs similaires. "⟩
  else if similarityRatio < 2/5 then
    ⟨10, 25, "Plusieurs couleurs similaires détectées. "⟩
  else ⟨0, 25, "Beaucoup de couleurs similaires (manque de cohérence). "⟩

/-- Formats criterion (declared max 20): base score from the number of syntax
families, then an unconditional +5 bonus when oklch or hsl is present —
so the score reaches 25 when a single modern family is used. -/
def colorsFormatsCriterion (formats : ColorFormats) : Criterion :=
  let fc := formatCountOf formats
  let base : Criterion :=
    if fc = 1 then ⟨20, 20, "Format de couleur uniforme. "⟩
    else if fc = 2 then ⟨15, 20, "2 formats de couleurs utilisés. "⟩
    else if fc = 3 then ⟨10, 20, "3 formats de couleurs utilisés. "⟩
    else ⟨5, 20, "Trop de formats différents. "⟩
  if formats.oklch > 0 ∨ formats.hsl > 0 then
    ⟨base.score + 5, 20, base.details ++ "Format moderne détecté. "⟩
  else base

/-- Transparency criterion (15 points), sweet spot 0 < ratio < 0.3. -/
def colorsTransparencyCriterion (transparencyRatio : ℚ) : Criterion :=
  if 0 < transparencyRatio ∧ transparencyRatio < 3/10 then
    ⟨15, 15, "Utilisation appropriée de la transparence. "⟩
  else if 3/10 ≤ transparencyRatio ∧ transparencyRatio < 1/2 then
    ⟨10, 15, "Transparence fréquente. "⟩
  else if 1/2 ≤ transparencyRatio then
    ⟨5, 15, "Trop de couleurs transparentes. "⟩
  else ⟨12, 15, "Pas de transparence utilisée. "⟩

/-- Best practices criterion (10 points): hue-bucket diversity + var() bonus. -/
def colorsBestPracticesCriterion (colorGroupsLen : ℕ) (opaqueUsesVar : Bool) :
    Criterion :=
  let base : Criterion :=
    if 3 ≤ colorGroupsLen ∧ colorGroupsLen ≤ 6 then
      ⟨5, 10, "Bonne diversité de teintes. "⟩
    else if colorGroupsLen < 3 then ⟨0, 10, "Palette monotone. "⟩
    else ⟨0, 10, "Trop de gammes de teintes. "⟩
  if opaqueUsesVar then
    ⟨base.score + 5, 10, base.details ++ "Variables CSS utilisées. "⟩
  else base

structure ColorsBreakdown where
  palette : Criterion
  consistency : Criterion
  formats : Criterion
  transparency : Criterion
  bestPractices : Criterion
deriving Repr, DecidableEq

structure ColorsScore where
  total : ℤ
  breakdown : ColorsBreakdown
  grade : String
  improvements : List String
deriving Repr, DecidableEq

/-- `calculateColorsScore`. -/
def calculateColorsScore (colorData : ColorsScoreData) : ColorsScore :=
  let similarityRatio : ℚ :=
    if colorData.uniqueColors > 0 then
      (colorData.similarColorsCount : ℚ) / colorData.uniqueColors
    else 0
  let transparencyRatio : ℚ :=
    if colorData.totalColors > 0 then
      (colorData.transparentColors.length : ℚ) / colorData.totalColors
    else 0
  let opaqueUsesVar :=
    colorData.opaqueColors.any (fun c => strContains c.color "var(")
  let palette := colorsPaletteCriterion colorData.uniqueColors
  let consistency := colorsConsistencyCriterion similarityRatio
  let formats := colorsFormatsCriterion colorData.formats
  let transparency := colorsTransparencyCriterion transparencyRatio
  let bestPractices :=
    colorsBestPracticesCriterion colorData.colorGroups.length opaqueUsesVar
  let total := palette.score + consistency.score + formats.score +
    transparency.score + bestPractices.score
  let fc := formatCountOf colorData.formats
  let improvements :=
    (if colorData.uniqueColors > 20 then
      ["Réduire le nombre de couleurs : utiliser une palette limitée (8-15 couleurs)"]
    else []) ++
    (if similarityRatio > 3/10 then
      ["Harmoniser les couleurs similaires pour améliorer la cohérence"]
    else []) ++
    (if fc > 2 then
      ["Uniformiser les formats de couleurs (privilégier oklch ou hsl)"]
    else []) ++
    (if colorData.formats.oklch = 0 ∧ colorData.formats.hsl = 0 then
      ["Envisager l\x27utilisation de formats modernes comme oklch ou hsl"]
    else []) ++
    (if colorData.colorGroups.length > 6 then
      ["Limiter les gammes de teintes pour une palette plus cohérente"]
    else []) ++
    (if !opaqueUsesVar then
      ["Utiliser des variables CSS pour gérer les couleurs"]
    else [])
  { total := total,
    breakdown := ⟨palette, consistency, formats, transparency, bestPractices⟩,
    grade := gradeOf total,
    improvements := improvements }

/-- The `colors.unique` frequency table plus the `total`/`totalUnique`
counters of the Project-Wallace color data consumed by `analyzeColors`. -/
structure PWColors where
  unique : Option (List (String × ℕ))
  total : ℕ
  totalUnique : ℕ
deriving Repr, DecidableEq

/-- Score object stored by `analyzeColors`; `breakdown := none` models the
empty `breakdown: {}` of the zero-data branch. -/
structure AnalyzeScore where
  total : ℤ
  breakdown : Option ColorsBreakdown
  grade : String
  improvements : List String
deriving Repr, DecidableEq

structure ColorsAnalysis where
  totalColors : ℕ
  uniqueColors : ℕ
  colors : List ColorCount
  transparentColors : List ColorCount
  opaqueColors : List SimColor
  colorGroups : List HueGroup
  similarColors : List SimColor
  hasSimilarColors : Bool
  formats : ColorFormats
  score : AnalyzeScore
deriving Repr, DecidableEq

/-- `analyzeColors`.  The zero-data branch fires when the input object or its
`unique` table is absent (`!projectWallaceColors || !projectWallaceColors.unique`);
an empty-but-present `unique` object is truthy in JavaScript and takes the
normal path.  The zero-data branch does not set `hasSimilarColors` in the
source (undefined), modelled as `false`. -/
def analyzeColors (parseColor : ColorParser)
    (projectWallaceColors : Option PWColors) : ColorsAnalysis :=
  let emptyResult : ColorsAnalysis :=
    { totalColors := 0, uniqueColors := 0, colors := [],
      transparentColors := [], opaqueColors := [], colorGroups := [],
      similarColors := [], hasSimilarColors := false,
      formats := ⟨0, 0, 0, 0, 0, 0, 0⟩,
      score := ⟨0, none, "N/A", ["Aucune couleur détectée dans le CSS"]⟩ }
  match projectWallaceColors with
  | none => emptyResult
  | some pw =>
    match pw.unique with
    | none => emptyResult
    | some uniqueTable =>
      let colorsArray := uniqueTable.map (fun e => ColorCount.mk e.1 e.2)
      let transparentColors :=
        colorsArray.filter (fun item => isTransparent parseColor item.color)
      let opaqueColors :=
        colorsArray.filter (fun item => !(isTransparent parseColor item.color))
      let opaqueWithSimilarity := detectSimilarColors parseColor opaqueColors
      let similarColorsCount :=
        (opaqueWithSimilarity.filter (fun c => c.isSimilar)).length
      let colorGroups := groupColorsByHue parseColor opaqueColors
      let formats := detectFormats colorsArray
      let score := calculateColorsScore
        { totalColors := pw.total, uniqueColors := pw.totalUnique,
          transparentColors := transparentColors,
          opaqueColors := opaqueWithSimilarity,
          similarColorsCount := similarColorsCount,
          colorGroups := colorGroups, formats := formats }
      { totalColors := pw.total, uniqueColors := pw.totalUnique,
        colors := colorsArray, transparentColors := transparentColors,
        opaqueColors := opaqueWithSimilarity, colorGroups := colorGroups,
        similarColors := opaqueWithSimilarity.filter (fun c => c.isSimilar),
        hasSimilarColors := decide (similarColorsCount > 0),
        formats := formats,
        score := ⟨score.total, some score.breakdown, score.grade,
          score.improvements⟩ }

/-! ## Class/BEM analyzer (classAnalysisService)

The BEM regexes are over the alphabet `[a-z0-9-]` for each part, with parts
separated by `__` / `--`.  Since a part can contain single dashes but never
`__` or `--` (the block grammar `[a-z0-9]+(?:-[a-z0-9]+)*` forbids empty
dash-segments), a string matches `^(B)__(B)$` exactly when `splitOn "__"`
yields two block-grammar parts, and similarly for the other patterns; the
regex capture groups coincide with the split parts. -/

def isLowerAlnum (c : Char) : Bool :=
  (decide ('a'.toNat ≤ c.toNat) && decide (c.toNat ≤ 'z'.toNat)) ||
  (decide ('0'.toNat ≤ c.toNat) && decide (c.toNat ≤ '9'.toNat))

/-- `blockPattern = /^[a-z0-9]+(?:-[a-z0-9]+)*$/`. -/
def blockPattern (s : String) : Bool :=
  (strSplitOn s "-").all (fun p => !p.data.isEmpty && p.data.all isLowerAlnum)

/-- `elementPattern = /^(B)__(B)$/` with its two captures. -/
def elementMatch (s : String) : Option (String × String) :=
  match strSplitOn s "__" with
  | [b, e] => if blockPattern b && blockPattern e then some (b, e) else none
  | _ => none

/-- `blockModPattern = /^(B)--(B)$/` with its two captures. -/
def blockModMatch (s : String) : Option (String × String) :=
  match strSplitOn s "--" with
  | [b, m] => if blockPattern b && blockPattern m then some (b, m) else none
  | _ => none

/-- `elementModPattern = /^(B)__(B)--(B)$/` with its three captures. -/
def elementModMatch (s : String) : Option (String × String × String) :=
  match strSplitOn s "__" with
  | [b, rest] =>
    if blockPattern b then
      match strSplitOn rest "--" with
      | [e, m] =>
        if blockPattern e && blockPattern m then some (b, e, m) else none
      | _ => none
    else none
  | _ => none

/-- `isBemClass`: any of the four grammar patterns matches. -/
def isBemClass (cls : String) : Bool :=
  blockPattern cls || (elementMatch cls).isSome || (blockModMatch cls).isSome ||
    (elementModMatch cls).isSome

/-- Deduplicate preserving first-occurrence order (JavaScript `Set`). -/
def dedup (l : List String) : List String :=
  l.foldl (fun acc c => if acc.contains c then acc else acc ++ [c]) []

/-- `Set.add` on an insertion-ordered deduplicated list. -/
def setAdd (l : List String) (x : String) : List String :=
  if l.contains x then l else l ++ [x]

/-- The per-block accumulator `{elements, modifiers, elementModifiers}`. -/
structure BlockData where
  elements : List String
  modifiers : List String
  elementModifiers : List String
deriving Repr, DecidableEq

/-- `ensureBlock` + in-place mutation on the insertion-ordered block map. -/
def updateBlocks (blocks : List (String × BlockData)) (name : String)
    (f : BlockData → BlockData) : List (String × BlockData) :=
  if blocks.any (fun b => b.1 = name) then
    blocks.map (fun b => if b.1 = name then (b.1, f b.2) else b)
  else
    blocks ++ [(name, f ⟨[], [], []⟩)]

structure CategoryCounts where
  block : ℕ
  element : ℕ
  modifier : ℕ
  elementModifier : ℕ
  other : ℕ
deriving Repr, DecidableEq

/-- State threaded through the classification pass of `computeBemMetrics`. -/
structure BemScan where
  blocks : List (String × BlockData)
  definedBlocks : List String
  counts : CategoryCounts
deriving Repr, DecidableEq

/-- The `classify` closure of `computeBemMetrics`: patterns are tried in the
order elementModifier, element, blockModifier, block. -/
def bemClassify (st : BemScan) (cls : String) : BemScan :=
  match elementModMatch cls with
  | some (blockName, elementName, _) =>
    { st with
      blocks := updateBlocks st.blocks blockName (fun d =>
        { d with
          elements := setAdd d.elements (blockName ++ "__" ++ elementName),
          elementModifiers := setAdd d.elementModifiers cls }),
      counts := { st.counts with elementModifier := st.counts.elementModifier + 1 } }
  | none =>
  match elementMatch cls with
  | some (blockName, elementName) =>
    { st with
      blocks := updateBlocks st.blocks blockName (fun d =>
        { d with elements := setAdd d.elements (blockName ++ "__" ++ elementName) }),
      counts := { st.counts with element := st.counts.element + 1 } }
  | none =>
  match blockModMatch cls with
  | some (blockName, _) =>
    { st with
      blocks := updateBlocks st.blocks blockName (fun d =>
        { d with modifiers := setAdd d.modifiers cls }),
      counts := { st.counts with modifier := st.counts.modifier + 1 } }
  | none =>
    if blockPattern cls then
      { st with
        blocks := updateBlocks st.blocks cls id,
        definedBlocks := setAdd st.definedBlocks cls,
        counts := { st.counts with block := st.counts.block + 1 } }
    else
      { st with counts := { st.counts with other := st.counts.other + 1 } }

/-- One iteration of the violation pass of `computeBemMetrics`: a violation
is pushed only when the captured block name fails `blockPattern` AND is
absent from the combined class set. -/
def bemViolationStep (allClasses : List String) (acc : List String)
    (cls : String) : List String :=
  let acc1 :=
    match blockModMatch cls with
    | some (blockName, _) =>
      if !blockPattern blockName && !allClasses.contains blockName then
        acc ++ ["Modifier sans block: " ++ cls]
      else acc
    | none => acc
  match elementMatch cls with
  | some (blockName, _) =>
    if !blockPattern blockName && !allClasses.contains blockName then
      acc1 ++ ["Element sans block: " ++ cls]
    else acc1
  | none => acc1

/-- The violation pass of `computeBemMetrics`. -/
def bemViolations (allClasses : List String) : List String :=
  allClasses.foldl (bemViolationStep allClasses) []

structure BemCounts where
  blocks : ℕ
  elements : ℕ
  modifiers : ℕ
  elementModifiers : ℕ
  other : ℕ
deriving Repr, DecidableEq

structure BemRatios where
  bemClassesRatio : ℚ
  structuredBlocksRatio : ℚ
deriving Repr, DecidableEq

structure BemDepth where
  max : ℕ
  average : ℚ
deriving Repr, DecidableEq

structure BlockStructure where
  totalBlocks : ℕ
  structuredBlocks : ℕ
  orphanBlocks : ℕ
  implicitBlocks : List String
deriving Repr, DecidableEq

structure BemMetrics where
  blocks : List (String × BlockData)
  counts : BemCounts
  ratios : BemRatios
  depth : BemDepth
  blockStructure : BlockStructure
  violations : List String
deriving Repr, DecidableEq

/-- `computeBemMetrics(htmlClasses, cssClasses)`. -/
def computeBemMetrics (htmlClasses cssClasses : List String) : BemMetrics :=
  let allClasses := dedup (htmlClasses ++ cssClasses)
  let scan := allClasses.foldl bemClassify ⟨[], [], ⟨0, 0, 0, 0, 0⟩⟩
  let violations := bemViolations allClasses
  let depthValues : List ℕ :=
    List.replicate scan.counts.block 1 ++ List.replicate scan.counts.element 2 ++
    List.replicate scan.counts.modifier 2 ++
    List.replicate scan.counts.elementModifier 3 ++
    List.replicate scan.counts.other 1
  let depthAvg : ℚ :=
    if depthValues.length ≠ 0 then
      ((depthValues.sum : ℚ) / depthValues.length) else 0
  let depthMax : ℕ := depthValues.foldl Nat.max 0
  let bemClassesCount := scan.counts.block + scan.counts.element +
    scan.counts.modifier + scan.counts.elementModifier
  let bemClassesRatio : ℚ :=
    if allClasses.length ≠ 0 then
      toFixed3 ((bemClassesCount : ℚ) / allClasses.length) else 0
  let structuredBlocksCount :=
    (scan.blocks.filter (fun b =>
      !b.2.elements.isEmpty || !b.2.modifiers.isEmpty ||
        !b.2.elementModifiers.isEmpty)).length
  let orphanBlocksCount :=
    (scan.blocks.filter (fun b =>
      b.2.elements.isEmpty && b.2.modifiers.isEmpty &&
        b.2.elementModifiers.isEmpty)).length
  let implicitBlocks :=
    (scan.blocks.filter (fun b => !scan.definedBlocks.contains b.1)).map
      (fun b => b.1)
  let totalBlocks := scan.blocks.length
  let structuredBlocksRatio : ℚ :=
    if totalBlocks ≠ 0 then
      toFixed3 ((structuredBlocksCount : ℚ) / totalBlocks) else 0
  { blocks := scan.blocks,
    counts := ⟨scan.counts.block, scan.counts.element, scan.counts.modifier,
      scan.counts.elementModifier, scan.counts.other⟩,
    ratios := ⟨bemClassesRatio, structuredBlocksRatio⟩,
    depth := ⟨depthMax, toFixed2 depthAvg⟩,
    blockStructure := ⟨totalBlocks, structuredBlocksCount, orphanBlocksCount,
      implicitBlocks⟩,
    violations := violations }

structure Comparisons where
  unusedCssClasses : List String
  undefinedHtmlClasses : List String
  coverageHtml : ℚ
  coverageCss : ℚ
  cssEfficiency : ℚ
deriving Repr, DecidableEq

/-- `computeComparisons` over the two `uniqueClasses` lists. -/
def computeComparisons (htmlUniqueClasses cssUniqueClasses : List String) :
    Comparisons :=
  let htmlSet := dedup htmlUniqueClasses
  let cssSet := dedup cssUniqueClasses
  let unusedCssClasses := cssSet.filter (fun c => !htmlSet.contains c)
  let undefinedHtmlClasses := htmlSet.filter (fun c => !cssSet.contains c)
  let coverageHtml : ℚ :=
    if htmlSet.length ≠ 0 then
      toFixed3 (((htmlSet.length : ℚ) - undefinedHtmlClasses.length) /
        htmlSet.length)
    else 0
  let coverageCss : ℚ :=
    if cssSet.length ≠ 0 then
      toFixed3 (((cssSet.length : ℚ) - unusedCssClasses.length) / cssSet.length)
    else 0
  { unusedCssClasses := unusedCssClasses,
    undefinedHtmlClasses := undefinedHtmlClasses,
    coverageHtml := coverageHtml, coverageCss := coverageCss,
    cssEfficiency := coverageCss }

/-- Decimal rendering of `Number(q.toFixed(2))` for the nonnegative ratios
interpolated into details strings (trailing zeros dropped, as JavaScript
prints the resulting number). -/
def formatFixed2 (q : ℚ) : String :=
  let m := jsRound (q * 100)
  let n := m.natAbs
  let sign := if m < 0 then "-" else ""
  let ip := n / 100
  let fr := n % 100
  if fr = 0 then sign ++ toString ip
  else if fr % 10 = 0 then sign ++ toString ip ++ "." ++ toString (fr / 10)
  else if fr < 10 then sign ++ toString ip ++ ".0" ++ toString fr
  else sign ++ toString ip ++ "." ++ toString fr

/-- The fields of the class-analysis object read by `calculateBemClassesScore`
(via `classAnalysis.mismatch`, `classAnalysis.css.totalSelectors`,
`classAnalysis.css.selectorForms.pureBemSelectors`, `classAnalysis.bem`). -/
structure BemScoreData where
  coverageHtml : ℚ
  coverageCss : ℚ
  totalSelectors : ℕ
  pureBemSelectors : ℕ
  totalBlocks : ℕ
  structuredBlocks : ℕ
  elements : ℕ
  modifiers : ℕ
  elementModifiers : ℕ
deriving Repr, DecidableEq

/-- Breakdown of the BEM score; the JavaScript key `structure` is the field
`structureCrit` here (`structure` is a Lean keyword). -/
structure BemBreakdown where
  coverage : Criterion
  selectorForms : Criterion
  structureCrit : Criterion
  elementsRatio : Criterion
  modifiers : Criterion
deriving Repr, DecidableEq

structure BemScore where
  total : ℤ
  breakdown : BemBreakdown
  grade : String
  improvements : List String
deriving Repr, DecidableEq

/-- Coverage criterion (15 points) of the BEM score. -/
def bemCoverageCriterion (coverageHtml coverageCss : ℚ) : Criterion :=
  let averageCoverage : ℚ := (coverageHtml + coverageCss) / 2
  ⟨if averageCoverage ≥ 95/100 then 15
    else if averageCoverage ≥ 85/100 then 12
    else if averageCoverage ≥ 7/10 then 8
    else 4, 15,
    "Couverture moyenne: " ++ toString (jsRound (averageCoverage * 100)) ++ "%"⟩

/-- Pure-BEM selector criterion (30 points) of the BEM score. -/
def bemSelectorFormsCriterion (totalSelectors pureBemSelectors : ℕ) :
    Criterion :=
  let bemPercentage : ℚ := (pureBemSelectors : ℚ) / totalSelectors * 100
  if totalSelectors > 0 then
    ⟨if bemPercentage ≥ 80 then 30
      else if bemPercentage ≥ 60 then 24
      else if bemPercentage ≥ 40 then 18
      else if bemPercentage ≥ 25 then 12
      else 6, 30, "Pure BEM: " ++ toString (jsRound bemPercentage) ++ "%"⟩
  else ⟨0, 30, "Aucun sélecteur CSS."⟩

/-- Structured-blocks criterion (25 points) of the BEM score. -/
def bemStructureCriterion (totalBlocks structuredBlocks : ℕ) : Criterion :=
  let structuredPercentage : ℚ := (structuredBlocks : ℚ) / totalBlocks * 100
  if totalBlocks > 0 then
    ⟨if structuredPercentage ≥ 80 then 25
      else if structuredPercentage ≥ 60 then 20
      else if structuredPercentage ≥ 40 then 14
      else if structuredPercentage ≥ 25 then 8
      else 3, 25,
      "Blocs structurés: " ++ toString (jsRound structuredPercentage) ++ "%"⟩
  else ⟨0, 25, "Aucun bloc BEM identifié."⟩

/-- Elements-per-block criterion (20 points) of the BEM score. -/
def bemElementsRatioCriterion (totalBlocks elements : ℕ) : Criterion :=
  let elementsPerBlock : ℚ := (elements : ℚ) / totalBlocks
  if totalBlocks > 0 then
    ⟨if 2 ≤ elementsPerBlock ∧ elementsPerBlock ≤ 6 then 20
      else if 1 ≤ elementsPerBlock ∧ elementsPerBlock < 2 then 15
      else if 6 < elementsPerBlock ∧ elementsPerBlock ≤ 10 then 12
      else if elementsPerBlock > 0 then 8
      else 0, 20, "Éléments/bloc: " ++ formatFixed2 elementsPerBlock⟩
  else ⟨0, 20, "Pas de blocs pour calculer le ratio."⟩

/-- Modifiers-per-block criterion (10 points) of the BEM score. -/
def bemModifiersCriterion (totalBlocks totalModifiersCount : ℕ) : Criterion :=
  let modifiersPerBlock : ℚ := (totalModifiersCount : ℚ) / totalBlocks
  if totalBlocks > 0 then
    ⟨if modifiersPerBlock ≥ 3/2 then 10
      else if modifiersPerBlock ≥ 1 then 8
      else if modifiersPerBlock ≥ 1/2 then 5
      else 2, 10, "Modificateurs/bloc: " ++ formatFixed2 modifiersPerBlock⟩
  else ⟨0, 10, "Pas de blocs pour évaluer les modificateurs."⟩

/-- `calculateBemClassesScore` on a non-null analysis object (the null guard
of the source returns a fixed `total: 0` result and is never taken when
called from `performClassAnalysis`). -/
def calculateBemClassesScore (classAnalysis : BemScoreData) : BemScore :=
  let averageCoverage : ℚ :=
    (classAnalysis.coverageHtml + classAnalysis.coverageCss) / 2
  let coverage := bemCoverageCriterion classAnalysis.coverageHtml
    classAnalysis.coverageCss
  let totalSelectors := classAnalysis.totalSelectors
  let pureBemSelectors := classAnalysis.pureBemSelectors
  let bemPercentage : ℚ := (pureBemSelectors : ℚ) / totalSelectors * 100
  let selectorForms := bemSelectorFormsCriterion totalSelectors pureBemSelectors
  let totalBlocks := classAnalysis.totalBlocks
  let structuredBlocks := classAnalysis.structuredBlocks
  let structuredPercentage : ℚ := (structuredBlocks : ℚ) / totalBlocks * 100
  let structureCrit := bemStructureCriterion totalBlocks structuredBlocks
  let elements := classAnalysis.elements
  let elementsPerBlock : ℚ := (elements : ℚ) / totalBlocks
  let elementsRatio := bemElementsRatioCriterion totalBlocks elements
  let totalModifiersCount := classAnalysis.modifiers + classAnalysis.elementModifiers
  let modifiersPerBlock : ℚ := (totalModifiersCount : ℚ) / totalBlocks
  let modifiers := bemModifiersCriterion totalBlocks totalModifiersCount
  let total := coverage.score + selectorForms.score + structureCrit.score +
    elementsRatio.score + modifiers.score
  let improvements :=
    (if averageCoverage < 85/100 then
      ["Améliorer la couverture entre HTML et CSS (réduire classes orphelines)"]
    else []) ++
    (if totalSelectors > 0 ∧ bemPercentage < 60 then
      ["Augmenter la part de sélecteurs BEM purs et éviter les combinateurs/ID"]
    else []) ++
    (if totalBlocks > 0 then
      (if structuredPercentage < 60 then
        ["Structurer les blocs avec éléments et modificateurs (éviter blocs orphelins)"]
      else []) ++
      (if ¬(2 ≤ elementsPerBlock ∧ elementsPerBlock ≤ 6) then
        ["Ajuster le ratio éléments par bloc (viser 2 à 6)"]
      else []) ++
      (if modifiersPerBlock < 1 then
        ["Utiliser davantage de modificateurs pour exprimer les variantes"]
      else [])
    else [])
  { total := total,
    breakdown := ⟨coverage, selectorForms, structureCrit, elementsRatio,
      modifiers⟩,
    grade := gradeOf total,
    improvements := improvements }

/-! ## Imports analyzer (cssImportsAnalyzer)

`analyzeImports` itself performs network probes (axios HEAD requests); the
claims concern its pure scoring function `calculateImportsScore`, embedded
here over the `analysisData` shape that `analyzeImports` builds. -/

structure ImportRecord where
  path : String
  isValid : Bool
  isNormalize : Bool
  isGoogleFontRec : Bool
  type : String
  category : String
  fileSize : Option ℤ
deriving Repr, DecidableEq

structure NamingIssues where
  totalFiles : ℕ
  filesWithIssues : ℕ
  withSpaces : ℕ
  withAccents : ℕ
  withSpecialChars : ℕ
  withUpperCase : ℕ
  problematicFiles : List String
deriving Repr, DecidableEq

structure ImportsOrganization where
  googleFontsCount : ℕ
  externalCount : ℕ
  relativeCount : ℕ
  validCount : ℕ
  invalidCount : ℕ
  categories : List (String × ℕ)
  namingIssues : NamingIssues
deriving Repr, DecidableEq

structure ImportsData where
  total : ℕ
  imports : List ImportRecord
  organization : ImportsOrganization
deriving Repr, DecidableEq

structure ImportsBreakdown where
  validity : Criterion
  organization : Criterion
  performance : Criterion
  naming : Criterion
  bestPractices : Criterion
deriving Repr, DecidableEq

structure ImportsScore where
  total : ℤ
  breakdown : ImportsBreakdown
  grade : String
  improvements : List String
deriving Repr, DecidableEq

/-- `calculateImportsScore`. -/
def calculateImportsScore (data : ImportsData) : ImportsScore :=
  let total := data.total
  let organization := data.organization
  let validity : Criterion :=
    if total = 0 then ⟨0, 25, "Aucun import détecté."⟩
    else
      let validRatio : ℚ := (organization.validCount : ℚ) / total
      ⟨jsRound (validRatio * 25), 25,
        if validRatio = 1 then "Tous les imports sont valides."
        else toString organization.invalidCount ++
          " import(s) invalide(s) sur " ++ toString total ++ "."⟩
  let categoryCount := organization.categories.length
  let hasMultipleCategories := categoryCount ≥ 3
  let categoryScore : ℤ := min 15 (categoryCount * 3)
  let orgScore : ℤ := min 30 (categoryScore +
    (if organization.relativeCount > 0 ∧
        (organization.relativeCount : ℚ) ≥ (total : ℚ) * (3/10) then 10 else 0) +
    (if hasMultipleCategories then 5 else 0))
  let orgCrit : Criterion :=
    ⟨orgScore, 30,
      if hasMultipleCategories then
        toString categoryCount ++ " catégories utilisées. Bonne modularité."
      else if categoryCount = 0 then "Aucune organisation détectée."
      else toString categoryCount ++ " catégorie(s). Manque de modularité."⟩
  let modularityBase : ℤ × String :=
    if 15 ≤ total ∧ total ≤ 25 then
      (20, toString total ++ " imports. Excellente modularité (1 fichier par composant). ")
    else if 10 ≤ total ∧ total < 15 then
      (15, toString total ++ " imports. Bonne modularité, pourrait être améliorée. ")
    else if 25 < total ∧ total ≤ 30 then
      (17, toString total ++ " imports. Très bonne modularité, légèrement fragmenté. ")
    else if 5 ≤ total ∧ total < 10 then
      (10, toString total ++ " imports. Manque de modularité. ")
    else if total > 30 then
      (12, toString total ++ " imports. Sur-fragmenté, considérer regrouper certains fichiers. ")
    else if total > 0 then
      (5, toString total ++ " import(s). Faible modularité. ")
    else (0, "Aucun import. ")
  let filesWithSize := data.imports.filter (fun i => i.fileSize.isSome)
  let largeFiles := (filesWithSize.filter (fun i =>
    match i.fileSize with
    | some n => decide (n > 100000)
    | none => false)).length
  let avgSize : ℚ :=
    ((filesWithSize.map (fun i => (i.fileSize.getD 0 : ℚ))).sum) /
      filesWithSize.length
  let modularity : ℤ × String :=
    if filesWithSize.length > 0 then
      if largeFiles > 0 then
        (modularityBase.1 - min 5 (largeFiles * 2),
          modularityBase.2 ++ toString largeFiles ++ " fichier(s) volumineux.")
      else if avgSize < 50000 then
        (modularityBase.1, modularityBase.2 ++ "Tailles de fichiers optimales.")
      else modularityBase
    else modularityBase
  let performance : Criterion := ⟨max 0 modularity.1, 20, modularity.2⟩
  let namingIssues := organization.namingIssues
  let totalFiles := namingIssues.totalFiles
  let naming : Criterion :=
    if totalFiles = 0 then ⟨0, 15, "Aucun fichier à analyser."⟩
    else
      let issuesCount := namingIssues.filesWithIssues
      let cleanRatio : ℚ := ((totalFiles : ℚ) - issuesCount) / totalFiles
      let problems :=
        (if namingIssues.withSpaces > 0 then
          [toString namingIssues.withSpaces ++ " avec espaces"] else []) ++
        (if namingIssues.withAccents > 0 then
          [toString namingIssues.withAccents ++ " avec accents"] else []) ++
        (if namingIssues.withSpecialChars > 0 then
          [toString namingIssues.withSpecialChars ++ " avec caractères spéciaux"]
        else []) ++
        (if namingIssues.withUpperCase > 0 then
          [toString namingIssues.withUpperCase ++ " avec majuscules"] else [])
      ⟨jsRound (cleanRatio * 15), 15,
        if issuesCount = 0 then "Conventions de nommage respectées."
        else toString issuesCount ++ "/" ++ toString totalFiles ++
          " fichier(s) avec problèmes: " ++ String.intercalate ", " problems ++ "."⟩
  let normalizeImports := (data.imports.filter (fun i => i.isNormalize)).length
  let bestPracticesScore : ℤ :=
    (if normalizeImports > 0 then 3 else 0) +
    (if organization.googleFontsCount > 0 ∧ organization.googleFontsCount ≤ 2
      then 4 else 0) +
    (if organization.externalCount ≤ 3 then 3 else 0)
  let goodPracticesParts :=
    if normalizeImports > 0 then ["Utilise normalize.css"] else []
  let bestPracticesParts :=
    (if organization.googleFontsCount > 2 then
      ["Trop d\x27imports Google Fonts"] else []) ++
    (if organization.externalCount > 3 then ["Trop d\x27imports externes"]
    else [])
  let messages :=
    (if !goodPracticesParts.isEmpty then
      ["Bonnes pratiques: " ++ String.intercalate ", " goodPracticesParts]
    else []) ++
    (if !bestPracticesParts.isEmpty then
      ["Problèmes: " ++ String.intercalate ", " bestPracticesParts]
    else [])
  let bestPractices : Criterion :=
    ⟨bestPracticesScore, 10,
      if !messages.isEmpty then String.intercalate ". " messages ++ "."
      else "Bonnes pratiques respectées."⟩
  let totalScore := validity.score + orgCrit.score + performance.score +
    naming.score + bestPractices.score
  let improvements :=
    (if organization.invalidCount > 0 then
      ["Corriger les imports invalides ou inaccessibles"] else []) ++
    (if categoryCount < 3 then
      ["Organiser le CSS en catégories (base, components, layout, utils)"]
    else []) ++
    (if total < 10 then
      ["Augmenter la modularité : créer un fichier CSS par composant (idéal : 15-25 imports)"]
    else if total > 30 then
      ["Trop de fichiers : envisager de regrouper certains composants similaires"]
    else []) ++
    (if organization.googleFontsCount > 2 then
      ["Limiter le nombre de polices Google Fonts"] else []) ++
    (if namingIssues.filesWithIssues > 0 then
      ["Renommer les fichiers: utiliser kebab-case, sans espaces, sans accents ni caractères spéciaux"]
    else [])
  { total := totalScore,
    breakdown := ⟨validity, orgCrit, performance, naming, bestPractices⟩,
    grade := gradeOf totalScore,
    improvements := improvements }

/-- The `analysisData` built by `analyzeImports` when the CSS contains zero
`@import` statements. -/
def zeroImportsData : ImportsData :=
  { total := 0, imports := [],
    organization :=
      { googleFontsCount := 0, externalCount := 0, relativeCount := 0,
        validCount := 0, invalidCount := 0, categories := [],
        namingIssues :=
          { totalFiles := 0, filesWithIssues := 0, withSpaces := 0,
            withAccents := 0, withSpecialChars := 0, withUpperCase := 0,
            problematicFiles := [] } } }

/-! ## Images analyzer (htmlImagesAnalyzer)

`new URL(src, baseUrl)` is modelled by an abstract resolver returning
`none` when the constructor would throw.  JavaScript `x || null` on the
enrichment fields maps `0` / `""` to `none`. -/

structure NetworkRequest where
  url : String
  resourceSize : Option ℤ
  mimeType : Option String
  resourceType : Option String
deriving Repr, DecidableEq

structure ImageInput where
  src : String
  alt : Option String
  ariaHidden : Option String
  hasLazyLoading : Bool
deriving Repr, DecidableEq

structure EnrichedImage where
  src : String
  alt : Option String
  ariaHidden : Option String
  hasLazyLoading : Bool
  resourceSize : Option ℤ
  mimeType : Option String
  format : String
deriving Repr, DecidableEq

/-- Abstract model of `new URL(src, baseUrl).href`; `none` = throws. -/
abbrev UrlResolver := String → String → Option String

def validExtensions : List String :=
  ["avif", "webp", "jpg", "jpeg", "png", "svg", "gif"]

/-- `detectImageFormat(src, lighthouseRequest)`: extension-derived format,
then the Lighthouse MIME type when present — a recognized MIME type
overrides the extension, `application/octet-stream` and unrecognized MIME
types fall back to the extension. -/
def detectImageFormat (src : String)
    (lighthouseRequest : Option NetworkRequest) : String :=
  let ext := (strSplitOn (strToLower ((strSplitOn src ".").getLastD "")) "?").headD ""
  let extFormat := if validExtensions.contains ext then ext else "unknown"
  match lighthouseRequest with
  | some req =>
    match req.mimeType with
    | some m =>
      if m = "" then extFormat
      else if m = "image/avif" then "avif"
      else if m = "image/webp" then "webp"
      else if m = "image/jpeg" then "jpg"
      else if m = "image/jpg" then "jpg"
      else if m = "image/png" then "png"
      else if m = "image/svg+xml" then "svg"
      else if m = "image/gif" then "gif"
      else if m = "application/octet-stream" then extFormat
      else extFormat
    | none => extFormat
  | none => extFormat

/-- JavaScript `x || null` on a nullable number. -/
def jsOrNullInt : Option ℤ → Option ℤ
  | some n => if n = 0 then none else some n
  | none => none

/-- JavaScript `x || null` on a nullable string. -/
def jsOrNullStr : Option String → Option String
  | some s => if s = "" then none else some s
  | none => none

/-- `enrichImagesWithNetworkData`. -/
def enrichImagesWithNetworkData (resolveUrl : UrlResolver)
    (images : List ImageInput)
    (lighthouseRequests : Option (List NetworkRequest)) (baseUrl : String) :
    List EnrichedImage :=
  match lighthouseRequests with
  | none =>
    images.map (fun img =>
      ⟨img.src, img.alt, img.ariaHidden, img.hasLazyLoading, none, none,
        detectImageFormat img.src none⟩)
  | some requests =>
    images.map (fun image =>
      match resolveUrl image.src baseUrl with
      | none =>
        ⟨image.src, image.alt, image.ariaHidden, image.hasLazyLoading, none,
          none, detectImageFormat image.src none⟩
      | some fullUrl =>
        let request := requests.find? (fun req =>
          req.resourceType == some "Image" && req.url == fullUrl)
        ⟨image.src, image.alt, image.ariaHidden, image.hasLazyLoading,
          jsOrNullInt (request.bind (fun r => r.resourceSize)),
          jsOrNullStr (request.bind (fun r => r.mimeType)),
          detectImageFormat image.src request⟩)

/-- `isDecorativeImage`. -/
def isDecorativeImage (image : EnrichedImage) : Bool :=
  image.alt == some "" || image.alt == some "No alt" ||
    image.ariaHidden == some "true"

def genericTerms : List String := ["image", "photo", "picture", "img", "icon"]

/-- `evaluateAltQuality`. -/
def evaluateAltQuality (alt : Option String) : String :=
  match alt with
  | none => "missing"
  | some a =>
    if a = "No alt" ∨ a = "" then "missing"
    else
      let isGeneric := genericTerms.any (fun term =>
        strContains (strToLower a) term && decide (charLen a < 15))
      if charLen a < 5 ∨ isGeneric = true then "poor"
      else "good"

/-- The per-format counters initialized in `analyzeImages` (keys
avif/webp/jpg/png/svg/gif/unknown). -/
structure ImgFormats where
  avif : ℕ
  webp : ℕ
  jpg : ℕ
  png : ℕ
  svg : ℕ
  gif : ℕ
  unknown : ℕ
deriving Repr, DecidableEq

/-- `formats[img.format]++` when the key exists, `formats.unknown++`
otherwise (so e.g. a `jpeg` extension format lands in `unknown`). -/
def bumpFormat (f : ImgFormats) (fmt : String) : ImgFormats :=
  if fmt = "avif" then { f with avif := f.avif + 1 }
  else if fmt = "webp" then { f with webp := f.webp + 1 }
  else if fmt = "jpg" then { f with jpg := f.jpg + 1 }
  else if fmt = "png" then { f with png := f.png + 1 }
  else if fmt = "svg" then { f with svg := f.svg + 1 }
  else if fmt = "gif" then { f with gif := f.gif + 1 }
  else { f with unknown := f.unknown + 1 }

def sumFormats (f : ImgFormats) : ℕ :=
  f.avif + f.webp + f.jpg + f.png + f.svg + f.gif + f.unknown

/-- Number of format keys with a positive count. -/
def imgFormatCount (f : ImgFormats) : ℕ :=
  (if f.avif > 0 then 1 else 0) + (if f.webp > 0 then 1 else 0) +
  (if f.jpg > 0 then 1 else 0) + (if f.png > 0 then 1 else 0) +
  (if f.svg > 0 then 1 else 0) + (if f.gif > 0 then 1 else 0) +
  (if f.unknown > 0 then 1 else 0)

/-- `Object.entries(formats).filter(count > 0).map(count + " " + format)`. -/
def imgFormatsList (f : ImgFormats) : List String :=
  (if f.avif > 0 then [toString f.avif ++ " avif"] else []) ++
  (if f.webp > 0 then [toString f.webp ++ " webp"] else []) ++
  (if f.jpg > 0 then [toString f.jpg ++ " jpg"] else []) ++
  (if f.png > 0 then [toString f.png ++ " png"] else []) ++
  (if f.svg > 0 then [toString f.svg ++ " svg"] else []) ++
  (if f.gif > 0 then [toString f.gif ++ " gif"] else []) ++
  (if f.unknown > 0 then [toString f.unknown ++ " unknown"] else [])

/-- The statistics object consumed by `calculateImagesScore`. -/
structure ImagesScoreData where
  totalImages : ℕ
  imagesWithAlt : ℕ
  imagesWithoutAlt : ℕ
  imagesWithGoodAlt : ℕ
  imagesWithPoorAlt : ℕ
  decorativeImages : ℕ
  contentImages : ℕ
  imagesWithLazyLoading : ℕ
  averageWeight : Option ℤ
  top5AverageWeight : Option ℤ
  formats : ImgFormats
  decorativeRatio : ℚ
deriving Repr, DecidableEq

structure ImagesBreakdown where
  accessibility : Criterion
  performance : Criterion
  bestPractices : Criterion
deriving Repr, DecidableEq

structure ImagesScore where
  total : ℤ
  breakdown : ImagesBreakdown
  grade : String
  improvements : List String
deriving Repr, DecidableEq

/-- `calculateImagesScore`. -/
def calculateImagesScore (data : ImagesScoreData) : ImagesScore :=
  if data.totalImages = 0 then
    { total := 100,
      breakdown := ⟨⟨0, 35, "Aucune image détectée."⟩,
        ⟨0, 35, "Aucune image détectée."⟩, ⟨0, 30, "Aucune image détectée."⟩⟩,
      grade := "A", improvements := ["Aucune image à optimiser."] }
  else
    let altPresenceRatio : ℚ := (data.imagesWithAlt : ℚ) / data.totalImages
    let altPresencePts : ℤ :=
      if altPresenceRatio ≥ 9/10 then 15
      else if altPresenceRatio ≥ 3/4 then 13
      else if altPresenceRatio ≥ 3/5 then 10
      else if altPresenceRatio ≥ 2/5 then 7
      else 4
    let goodAltRatio : ℚ :=
      (data.imagesWithGoodAlt : ℚ) / (max data.contentImages 1)
    let goodAltPts : ℤ :=
      if goodAltRatio ≥ 4/5 then 10
      else if goodAltRatio ≥ 3/5 then 8
      else if goodAltRatio ≥ 2/5 then 6
      else if goodAltRatio ≥ 1/4 then 4
      else 2
    let decorativePts : ℤ :=
      if 1/10 ≤ data.decorativeRatio ∧ data.decorativeRatio ≤ 1/4 then 10
      else if data.decorativeRatio < 1/10 ∨
        (data.decorativeRatio > 1/4 ∧ data.decorativeRatio ≤ 35/100) then 8
      else if data.decorativeRatio ≤ 45/100 then 5
      else 2
    let accessibility : Criterion :=
      ⟨altPresencePts + goodAltPts + decorativePts, 35,
        toString data.imagesWithAlt ++ "/" ++ toString data.totalImages ++
        " images avec alt (" ++ toString (jsRound (altPresenceRatio * 100)) ++
        "%), " ++ toString data.imagesWithGoodAlt ++ " alt de qualité, " ++
        toString data.decorativeImages ++ " décoratives (" ++
        toString (jsRound (data.decorativeRatio * 100)) ++ "%)"⟩
    let lazyLoadingRatio : ℚ :=
      (data.imagesWithLazyLoading : ℚ) / data.totalImages
    let lazyPts : ℤ :=
      if 2/5 ≤ lazyLoadingRatio ∧ lazyLoadingRatio ≤ 9/10 then 20
      else if 1/4 ≤ lazyLoadingRatio ∧ lazyLoadingRatio < 2/5 then 17
      else if 9/10 < lazyLoadingRatio ∧ lazyLoadingRatio ≤ 95/100 then 16
      else if lazyLoadingRatio ≥ 1/10 ∨ lazyLoadingRatio > 95/100 then 12
      else 7
    let weightScore : ℤ :=
      match data.top5AverageWeight with
      | some w =>
        let weightKB : ℚ := (w : ℚ) / 1024
        if weightKB < 80 then 15
        else if weightKB < 150 then 13
        else if weightKB < 250 then 10
        else if weightKB < 400 then 7
        else 4
      | none => 11
    let performanceDetails :=
      "Lazy loading: " ++ toString data.imagesWithLazyLoading ++ "/" ++
        toString data.totalImages ++ " (" ++
        toString (jsRound (lazyLoadingRatio * 100)) ++ "%)" ++
      (match data.top5AverageWeight with
        | some w => ", Top 5 poids moyen: " ++
            toString (jsRound ((w : ℚ) / 1024)) ++ "KB"
        | none => "") ++
      (match data.averageWeight with
        | some w => ", Moyenne: " ++ toString (jsRound ((w : ℚ) / 1024)) ++ "KB"
        | none => "")
    let performance : Criterion := ⟨lazyPts + weightScore, 35, performanceDetails⟩
    let totalFormats := sumFormats data.formats
    let modernFormats := data.formats.avif + data.formats.webp + data.formats.svg
    let modernRatio : ℚ :=
      if totalFormats > 0 then (modernFormats : ℚ) / totalFormats else 0
    let modernPts : ℤ :=
      if modernRatio ≥ 4/5 then 15
      else if modernRatio ≥ 3/5 then 13
      else if modernRatio ≥ 2/5 then 10
      else if modernRatio ≥ 1/5 then 7
      else 4
    let decorativeScore : ℤ :=
      if 1/10 ≤ data.decorativeRatio ∧ data.decorativeRatio ≤ 3/10 then 10
      else if data.decorativeRatio < 1/10 ∨
        (data.decorativeRatio > 3/10 ∧ data.decorativeRatio ≤ 2/5) then 8
      else if data.decorativeRatio ≤ 1/2 then 5
      else 2
    let fmtCount := imgFormatCount data.formats
    let fmtCountPts : ℤ :=
      if fmtCount ≤ 2 then 5 else if fmtCount = 3 then 3 else 1
    let bestPractices : Criterion :=
      ⟨modernPts + decorativeScore + fmtCountPts, 30,
        "Formats modernes: " ++ toString (jsRound (modernRatio * 100)) ++
        "% (" ++ String.intercalate ", " (imgFormatsList data.formats) ++
        "), Ratio décoratif: " ++
        toString (jsRound (data.decorativeRatio * 100)) ++ "%"⟩
    let total := accessibility.score + performance.score + bestPractices.score
    let improvementsBase :=
      (if data.imagesWithoutAlt > 0 then
        ["Ajouter des textes alt descriptifs pour " ++
          toString data.imagesWithoutAlt ++ " image(s) manquante(s)"]
      else []) ++
      (if data.imagesWithPoorAlt > 0 then
        ["Améliorer la qualité de " ++ toString data.imagesWithPoorAlt ++
          " texte(s) alt trop court(s) ou générique(s)"]
      else []) ++
      (if lazyLoadingRatio < 1/2 then
        ["Activer le lazy loading sur " ++
          toString ((data.totalImages : ℤ) - data.imagesWithLazyLoading) ++
          " image(s) supplémentaire(s) (hors first fold)"]
      else if lazyLoadingRatio > 85/100 then
        ["Attention : éviter le lazy loading sur les images above-the-fold (premières images visibles)"]
      else []) ++
      (match data.top5AverageWeight with
        | some w =>
          if (w : ℚ) / 1024 > 100 then
            ["Optimiser les 5 images les plus lourdes (moyenne: " ++
              toString (jsRound ((w : ℚ) / 1024)) ++ "KB > 100KB)"]
          else []
        | none => []) ++
      (if modernRatio < 7/10 then
        ["Utiliser des formats modernes (AVIF/WebP/SVG) pour " ++
          toString (jsRound ((1 - modernRatio) * 100)) ++ "% des images"]
      else []) ++
      (if data.decorativeRatio > 3/10 then
        ["Ratio d\x27images décoratives élevé (" ++
          toString (jsRound (data.decorativeRatio * 100)) ++
          "%), considérer CSS/background-image"]
      else [])
    let improvements :=
      if improvementsBase.isEmpty then ["Excellente optimisation des images !"]
      else improvementsBase
    { total := total, breakdown := ⟨accessibility, performance, bestPractices⟩,
      grade := gradeOf total, improvements := improvements }

/-- The mutable counters of the `enrichedImages.forEach` loop. -/
structure ImgCounters where
  imagesWithAlt : ℕ
  imagesWithoutAlt : ℕ
  imagesWithGoodAlt : ℕ
  imagesWithPoorAlt : ℕ
  decorativeImages : ℕ
  contentImages : ℕ
  imagesWithLazyLoading : ℕ
  formats : ImgFormats
deriving Repr, DecidableEq

/-- One iteration of the counting loop of `analyzeImages`. -/
def updateImgCounters (acc : ImgCounters) (img : EnrichedImage) : ImgCounters :=
  let altQuality := evaluateAltQuality img.alt
  let acc1 :=
    if altQuality ≠ "missing" then
      { acc with
        imagesWithAlt := acc.imagesWithAlt + 1,
        imagesWithGoodAlt :=
          if altQuality = "good" then acc.imagesWithGoodAlt + 1
          else acc.imagesWithGoodAlt,
        imagesWithPoorAlt :=
          if altQuality = "poor" then acc.imagesWithPoorAlt + 1
          else acc.imagesWithPoorAlt }
    else { acc with imagesWithoutAlt := acc.imagesWithoutAlt + 1 }
  let acc2 :=
    if isDecorativeImage img then
      { acc1 with decorativeImages := acc1.decorativeImages + 1 }
    else { acc1 with contentImages := acc1.contentImages + 1 }
  let acc3 :=
    if img.hasLazyLoading then
      { acc2 with imagesWithLazyLoading := acc2.imagesWithLazyLoading + 1 }
    else acc2
  { acc3 with formats := bumpFormat acc3.formats img.format }

/-- The weight collection of the loop: `resourceSize` truthy and not svg. -/
def imageWeights (imgs : List EnrichedImage) : List ℤ :=
  imgs.filterMap (fun img =>
    match img.resourceSize with
    | some n => if n ≠ 0 ∧ img.format ≠ "svg" then some n else none
    | none => none)

/-- Insertion step of the descending numeric sort `(a, b) => b - a`. -/
def insertDescInt (x : ℤ) : List ℤ → List ℤ
  | [] => [x]
  | y :: ys => if x ≥ y then x :: y :: ys else y :: insertDescInt x ys

def sortDescInt (l : List ℤ) : List ℤ := l.foldr insertDescInt []

/-- Insertion step of the ascending numeric sort `(a, b) => a - b`. -/
def insertAscInt (x : ℤ) : List ℤ → List ℤ
  | [] => [x]
  | y :: ys => if x < y then x :: y :: ys else y :: insertAscInt x ys

def sortAscInt (l : List ℤ) : List ℤ := l.foldr insertAscInt []

/-- `weights.length > 0 ? Math.round(sum / length) : null`. -/
def averageOfWeights (weights : List ℤ) : Option ℤ :=
  if weights.length > 0 then
    some (jsRound ((weights.sum : ℚ) / weights.length))
  else none

structure ImagesAnalysis extends ImagesScoreData where
  images : List EnrichedImage
  score : ImagesScore
deriving Repr, DecidableEq

/-- `analyzeImages(images, lighthouseRequests, baseUrl)`. -/
def analyzeImages (resolveUrl : UrlResolver) (images : List ImageInput)
    (lighthouseRequests : Option (List NetworkRequest)) (baseUrl : String) :
    ImagesAnalysis :=
  let enrichedImages :=
    enrichImagesWithNetworkData resolveUrl images lighthouseRequests baseUrl
  let totalImages := enrichedImages.length
  let counters := enrichedImages.foldl updateImgCounters
    ⟨0, 0, 0, 0, 0, 0, 0, ⟨0, 0, 0, 0, 0, 0, 0⟩⟩
  let weights := imageWeights enrichedImages
  let averageWeight := averageOfWeights weights
  let top5Weights := (sortDescInt weights).take 5
  let top5AverageWeight := averageOfWeights top5Weights
  let decorativeRatio : ℚ :=
    if totalImages > 0 then (counters.decorativeImages : ℚ) / totalImages else 0
  let analysisData : ImagesScoreData :=
    { totalImages := totalImages,
      imagesWithAlt := counters.imagesWithAlt,
      imagesWithoutAlt := counters.imagesWithoutAlt,
      imagesWithGoodAlt := counters.imagesWithGoodAlt,
      imagesWithPoorAlt := counters.imagesWithPoorAlt,
      decorativeImages := counters.decorativeImages,
      contentImages := counters.contentImages,
      imagesWithLazyLoading := counters.imagesWithLazyLoading,
      averageWeight := averageWeight,
      top5AverageWeight := top5AverageWeight,
      formats := counters.formats,
      decorativeRatio := toFixed2 decorativeRatio }
  { toImagesScoreData := analysisData, images := enrichedImages,
    score := calculateImagesScore analysisData }

structure PageInput where
  file : Option String
  title : Option String
  imagesAnalysis : Option ImagesAnalysis
deriving Repr, DecidableEq

structure GlobalStats where
  totalImages : ℕ
  imagesWithAlt : ℕ
  imagesWithoutAlt : ℕ
  imagesWithGoodAlt : ℕ
  imagesWithPoorAlt : ℕ
  decorativeImages : ℕ
  contentImages : ℕ
  imagesWithLazyLoading : ℕ
  averageWeight : Option ℤ
  top5AverageWeight : Option ℤ
  decorativeRatio : ℚ
deriving Repr, DecidableEq

structure PageScore where
  page : String
  score : ℤ
  grade : String
deriving Repr, DecidableEq

structure ScoreStats where
  average : ℤ
  min : ℤ
  max : ℤ
  median : ℤ
deriving Repr, DecidableEq

/-- Result of `synthesizeImagesAnalysis`; the zero-page branches of the
source omit the `pagesWithImages` and `scoreStats` keys (`none` here). -/
structure GlobalImagesAnalysis where
  totalPages : ℕ
  pagesWithImages : Option ℕ
  globalStats : GlobalStats
  formats : ImgFormats
  globalScore : ImagesScore
  pageScores : List PageScore
  scoreStats : Option ScoreStats
deriving Repr, DecidableEq

/-- The fixed record returned by both zero-data branches of
`synthesizeImagesAnalysis`. -/
def emptyGlobalImages (totalPages : ℕ) : GlobalImagesAnalysis :=
  { totalPages := totalPages, pagesWithImages := none,
    globalStats := ⟨0, 0, 0, 0, 0, 0, 0, 0, none, none, 0⟩,
    formats := ⟨0, 0, 0, 0, 0, 0, 0⟩,
    globalScore :=
      { total := 100,
        breakdown := ⟨⟨0, 35, "Aucune image détectée."⟩,
          ⟨0, 35, "Aucune image détectée."⟩,
          ⟨0, 30, "Aucune image détectée."⟩⟩,
        grade := "A", improvements := ["Aucune image à optimiser."] },
    pageScores := [], scoreStats := none }

/-- JavaScript `a || b` on a nullable string. -/
def jsOrStr (o : Option String) (d : String) : String :=
  match o with
  | some s => if s = "" then d else s
  | none => d

structure AggStats where
  totalImages : ℕ
  imagesWithAlt : ℕ
  imagesWithoutAlt : ℕ
  imagesWithGoodAlt : ℕ
  imagesWithPoorAlt : ℕ
  decorativeImages : ℕ
  contentImages : ℕ
  imagesWithLazyLoading : ℕ
deriving Repr, DecidableEq

/-- `synthesizeImagesAnalysis(pages)`.  The per-page `analysis.score` object
is always present for pages produced by `analyzeImages`, so the
`if (analysis.score)` guard is modelled as always collecting. -/
def synthesizeImagesAnalysis (pages : List PageInput) : GlobalImagesAnalysis :=
  if pages.isEmpty then emptyGlobalImages 0
  else
    let pagesWithImages := pages.filterMap (fun p =>
      p.imagesAnalysis.map (fun a => (p, a)))
    if pagesWithImages.isEmpty then emptyGlobalImages pages.length
    else
      let globalCore := pagesWithImages.foldl
        (fun (g : AggStats) pa =>
          ⟨g.totalImages + pa.2.totalImages,
            g.imagesWithAlt + pa.2.imagesWithAlt,
            g.imagesWithoutAlt + pa.2.imagesWithoutAlt,
            g.imagesWithGoodAlt + pa.2.imagesWithGoodAlt,
            g.imagesWithPoorAlt + pa.2.imagesWithPoorAlt,
            g.decorativeImages + pa.2.decorativeImages,
            g.contentImages + pa.2.contentImages,
            g.imagesWithLazyLoading + pa.2.imagesWithLazyLoading⟩)
        ⟨0, 0, 0, 0, 0, 0, 0, 0⟩
      let globalFormats := pagesWithImages.foldl
        (fun (f : ImgFormats) pa =>
          ⟨f.avif + pa.2.formats.avif, f.webp + pa.2.formats.webp,
            f.jpg + pa.2.formats.jpg, f.png + pa.2.formats.png,
            f.svg + pa.2.formats.svg, f.gif + pa.2.formats.gif,
            f.unknown + pa.2.formats.unknown⟩)
        ⟨0, 0, 0, 0, 0, 0, 0⟩
      let allWeights := pagesWithImages.foldl
        (fun (acc : List ℤ) pa => acc ++ imageWeights pa.2.images) []
      let pageScores := pagesWithImages.foldl
        (fun (acc : List PageScore) pa => acc ++
          [⟨jsOrStr pa.1.file (jsOrStr pa.1.title "Page sans nom"),
            pa.2.score.total, pa.2.score.grade⟩]) []
      let averageWeight := averageOfWeights allWeights
      let sortedWeights := sortDescInt allWeights
      let top5Weights := sortedWeights.take (min 5 sortedWeights.length)
      let top5AverageWeight := averageOfWeights top5Weights
      let decorativeRatio : ℚ :=
        if globalCore.totalImages > 0 then
          toFixed2 ((globalCore.decorativeImages : ℚ) / globalCore.totalImages)
        else 0
      let globalScore := calculateImagesScore
        { totalImages := globalCore.totalImages,
          imagesWithAlt := globalCore.imagesWithAlt,
          imagesWithoutAlt := globalCore.imagesWithoutAlt,
          imagesWithGoodAlt := globalCore.imagesWithGoodAlt,
          imagesWithPoorAlt := globalCore.imagesWithPoorAlt,
          decorativeImages := globalCore.decorativeImages,
          contentImages := globalCore.contentImages,
          imagesWithLazyLoading := globalCore.imagesWithLazyLoading,
          averageWeight := averageWeight,
          top5AverageWeight := top5AverageWeight,
          formats := globalFormats,
          decorativeRatio := decorativeRatio }
      let scoresList := pageScores.map (fun p => p.score)
      let sortedScores := sortAscInt scoresList
      let mid := sortedScores.length / 2
      let scoreStatsVal : ScoreStats :=
        { average := jsRound ((scoresList.sum : ℚ) / pageScores.length),
          min := scoresList.foldl Min.min (scoresList.headD 0),
          max := scoresList.foldl Max.max (scoresList.headD 0),
          median :=
            if sortedScores.length % 2 = 0 then
              jsRound (((sortedScores.getD (mid - 1) 0 : ℚ) +
                (sortedScores.getD mid 0 : ℚ)) / 2)
            else sortedScores.getD mid 0 }
      let scoreStats : Option ScoreStats :=
        if pageScores.length > 0 then some scoreStatsVal else none
      { totalPages := pages.length,
        pagesWithImages := some pagesWithImages.length,
        globalStats :=
          { totalImages := globalCore.totalImages,
            imagesWithAlt := globalCore.imagesWithAlt,
            imagesWithoutAlt := globalCore.imagesWithoutAlt,
            imagesWithGoodAlt := globalCore.imagesWithGoodAlt,
            imagesWithPoorAlt := globalCore.imagesWithPoorAlt,
            decorativeImages := globalCore.decorativeImages,
            contentImages := globalCore.contentImages,
            imagesWithLazyLoading := globalCore.imagesWithLazyLoading,
            averageWeight := averageWeight,
            top5AverageWeight := top5AverageWeight,
            decorativeRatio := decorativeRatio },
        formats := globalFormats,
        globalScore := globalScore,
        pageScores := pageScores,
        scoreStats := scoreStats }

/-! ## Variable resolver (resolveVariable, shared CSS helpers)

The regex `var\(\s*(--[\w-]+)\s*(?:,\s*([^)]+))?\)` is embedded as a
maximal-munch scanner.  Maximal munch is faithful here: each repeated
character class is disjoint from the characters that may follow it, except
for the fallback part `\s*([^)]+)` where the regex backtracks at most to leave
one character for the nonempty group — mirrored by taking
`min(leadingWhitespace, length - 1)` characters of whitespace.  `exec` finds
the leftmost position where the whole pattern matches, and
`String.prototype.replace` with a plain string replaces the leftmost
occurrence of the matched text (which is that same position: any earlier
occurrence of the matched text would itself be a leftmost regex match). -/

def isJsSpace (c : Char) : Bool :=
  c == ' ' || c == '\t' || c == '\n' || c == '\r' || c == '\x0b' || c == '\x0c'

/-- JavaScript `\w` plus the `-` of the name character class `[\w-]`. -/
def isWordDashChar (c : Char) : Bool := c.isAlphanum || c == '_' || c == '-'

/-- Try to match the `var(...)` pattern at the head of `l`, returning the
matched text, the captured variable name (group 1, with leading `--`) and
the captured fallback (group 2), if any. -/
def varMatchAt (l : List Char) : Option (List Char × String × Option String) :=
  match l with
  | 'v' :: 'a' :: 'r' :: '(' :: rest0 =>
    let ws1 := rest0.takeWhile isJsSpace
    let rest1 := rest0.dropWhile isJsSpace
    match rest1 with
    | '-' :: '-' :: rest2 =>
      let body := rest2.takeWhile isWordDashChar
      let rest3 := rest2.dropWhile isWordDashChar
      if body.isEmpty then none
      else
        let ws2 := rest3.takeWhile isJsSpace
        let rest4 := rest3.dropWhile isJsSpace
        match rest4 with
        | ')' :: _ =>
          some ('v' :: 'a' :: 'r' :: '(' ::
              (ws1 ++ '-' :: '-' :: body ++ ws2 ++ [')']),
            String.mk ('-' :: '-' :: body), none)
        | ',' :: rest5 =>
          let pre := rest5.takeWhile (fun c => c != ')')
          let rest6 := rest5.dropWhile (fun c => c != ')')
          match rest6 with
          | ')' :: _ =>
            if pre.isEmpty then none
            else
              let leadWs := (pre.takeWhile isJsSpace).length
              let i := Nat.min leadWs (pre.length - 1)
              some ('v' :: 'a' :: 'r' :: '(' ::
                  (ws1 ++ '-' :: '-' :: body ++ ws2 ++ ',' :: pre ++ [')']),
                String.mk ('-' :: '-' :: body), some (String.mk (pre.drop i)))
          | _ => none
        | _ => none
    | _ => none
  | _ => none

/-- `varRegex.exec(resolved)`: leftmost match of the pattern. -/
def findVarMatch : List Char → Option (List Char × String × Option String)
  | [] => none
  | c :: cs =>
    match varMatchAt (c :: cs) with
    | some m => some m
    | none => findVarMatch cs

/-- Replace the first occurrence of `pat` (nonempty in our use) in the list. -/
def replaceFirstAux (pat rep : List Char) : List Char → List Char
  | [] => []
  | c :: cs =>
    if pat.isPrefixOf (c :: cs) then rep ++ (c :: cs).drop pat.length
    else c :: replaceFirstAux pat rep cs

/-- JavaScript `s.replace(pat, rep)` with a plain-string pattern. -/
def jsReplaceFirst (s pat rep : String) : String :=
  String.mk (replaceFirstAux pat.data rep.data s.data)

/-- `cssVariables.get(name)` on the declaration map. -/
def mapGet (m : List (String × String)) (k : String) : Option String :=
  (m.find? (fun e => e.1 == k)).map (fun e => e.2)

/-- `cssVariables.get(varName) || fallback || match[0]` with JavaScript
falsiness (the empty string falls through). -/
def varValueOf (m : List (String × String)) (varName : String)
    (fallback : Option String) (match0 : String) : String :=
  let fromFallback :=
    match fallback with
    | some f => if f = "" then match0 else f
    | none => match0
  match mapGet m varName with
  | some v => if v = "" then fromFallback else v
  | none => fromFallback

/-- One iteration of the rewrite loop: leftmost match substituted, or `none`
when `exec` returns null. -/
def resolveStep (cssVariables : List (String × String)) (resolved : String) :
    Option String :=
  match findVarMatch resolved.data with
  | none => none
  | some (m0, varName, fallback) =>
    let match0 := String.mk m0
    some (jsReplaceFirst resolved match0
      (varValueOf cssVariables varName fallback match0))

/-- The named iteration bound of the source (`const maxIterations = 10`). -/
def maxIterations : ℕ := 10

/-- The bounded while loop of `resolveVariable`. -/
def resolveLoop (cssVariables : List (String × String)) :
    ℕ → String → String
  | 0, resolved => resolved
  | Nat.succ n, resolved =>
    match resolveStep cssVariables resolved with
    | none => resolved
    | some next => resolveLoop cssVariables n next

/-- `resolveVariable(value, cssVariables)`.  A `null`/empty `value` returns
itself through the `!value` guard, which coincides with the loop finding no
match in the empty string. -/
def resolveVariable (value : String)
    (cssVariables : List (String × String)) : String :=
  resolveLoop cssVariables maxIterations value

/-- The rewrite step as a total function (`step` or identity), used to state
that the resolver performs at most `maxIterations` rewrites. -/
def resolveStepOr (cssVariables : List (String × String)) (s : String) :
    String :=
  (resolveStep cssVariables s).getD s

/-! ## Theorems -/

theorem minHueDiff_comm (h1 h2 : ℚ) : minHueDiff h1 h2 = minHueDiff h2 h1 := by
  unfold minHueDiff
  rw [abs_sub_comm]

theorem areColorsSimilar_comm (pc : ColorParser) (c1 c2 : String)
    (lt ct ht : ℚ) :
    areColorsSimilar pc c1 c2 lt ct ht = areColorsSimilar pc c2 c1 lt ct ht := by
  unfold areColorsSimilar
  cases pc c1 with
  | none => cases pc c2 <;> rfl
  | some o1 =>
    cases pc c2 with
    | none => rfl
    | some o2 =>
      show (if o1.c < 2/100 ∧ o2.c < 2/100 then
          decide (|o1.l - o2.l| < 7/100)
        else decide (|o1.l - o2.l| < lt ∧ |o1.c - o2.c| < ct ∧
          minHueDiff o1.h o2.h < ht)) =
        (if o2.c < 2/100 ∧ o1.c < 2/100 then
          decide (|o2.l - o1.l| < 7/100)
        else decide (|o2.l - o1.l| < lt ∧ |o2.c - o1.c| < ct ∧
          minHueDiff o2.h o1.h < ht))
      rw [if_congr and_comm
        (decide_eq_decide.mpr (by rw [abs_sub_comm]))
        (decide_eq_decide.mpr (by
          rw [abs_sub_comm o1.l o2.l, abs_sub_comm o1.c o2.c,
            minHueDiff_comm o1.h o2.h]))]

/-- C8: color similarity at the default thresholds is symmetric,
`areColorsSimilar(c1, c2) = areColorsSimilar(c2, c1)` for every parser and
every pair of color literals. -/
theorem c8_areColorsSimilar_symmetric (pc : ColorParser) (c1 c2 : String) :
    areColorsSimilarDefault pc c1 c2 = areColorsSimilarDefault pc c2 c1 :=
  areColorsSimilar_comm pc c1 c2 (1/10) (6/100) 35

theorem blockModMatch_blockPattern {cls : String} {p : String × String}
    (h : blockModMatch cls = some p) : blockPattern p.1 = true := by
  unfold blockModMatch at h
  split at h
  next b m _ =>
    split at h
    next hcond =>
      obtain ⟨rfl, rfl⟩ : b = p.1 ∧ m = p.2 := by
        cases h
        exact ⟨rfl, rfl⟩
      rw [Bool.and_eq_true] at hcond
      exact hcond.1
    next => exact absurd h (by simp)
  next => exact absurd h (by simp)

theorem elementMatch_blockPattern {cls : String} {p : String × String}
    (h : elementMatch cls = some p) : blockPattern p.1 = true := by
  unfold elementMatch at h
  split at h
  next b e _ =>
    split at h
    next hcond =>
      obtain ⟨rfl, rfl⟩ : b = p.1 ∧ e = p.2 := by
        cases h
        exact ⟨rfl, rfl⟩
      rw [Bool.and_eq_true] at hcond
      exact hcond.1
    next => exact absurd h (by simp)
  next => exact absurd h (by simp)

theorem bemViolationStep_eq (ac acc : List String) (cls : String) :
    bemViolationStep ac acc cls = acc := by
  unfold bemViolationStep
  cases hbm : blockModMatch cls with
  | none =>
    cases hem : elementMatch cls with
    | none => rfl
    | some pe => simp [elementMatch_blockPattern hem]
  | some pb =>
    cases hem : elementMatch cls with
    | none => simp [blockModMatch_blockPattern hbm]
    | some pe =>
      simp [blockModMatch_blockPattern hbm, elementMatch_blockPattern hem]

theorem foldl_bemViolationStep (ac : List String) :
    ∀ (l acc : List String), l.foldl (bemViolationStep ac) acc = acc := by
  intro l
  induction l with
  | nil => intro acc; rfl
  | cons c cs ih =>
    intro acc
    rw [List.foldl_cons, bemViolationStep_eq]
    exact ih acc

/-- C2: the violation guard of `computeBemMetrics` requires the captured
block-name prefix to FAIL the block pattern, but a prefix captured by
`blockModPattern`/`elementPattern` always matches the block pattern, so
the violations list is empty for every input — in particular for
`btn--primary` with `btn` absent from the combined class set, where the
spec expects a `Modifier sans block` entry. -/
theorem c2_violations_always_empty (htmlClasses cssClasses : List String) :
    (computeBemMetrics htmlClasses cssClasses).violations = [] :=
  foldl_bemViolationStep (dedup (htmlClasses ++ cssClasses)) _ []

/-- C3 counterexample: with zero imports the total is not 0. -/
theorem c3_zero_imports_total_nonzero :
    (calculateImportsScore zeroImportsData).total ≠ 0 := by decide

/-- C3 (amended): with an empty import list `calculateImportsScore` returns
a well-formed result with total 3 (the ≤3-external-imports best-practice
bonus applies vacuously), grade F, and explanatory breakdown details. -/
theorem c3_zero_imports_score :
    (calculateImportsScore zeroImportsData).total = 3 ∧
    (calculateImportsScore zeroImportsData).grade = "F" ∧
    (calculateImportsScore zeroImportsData).breakdown.validity =
      ⟨0, 25, "Aucun import détecté."⟩ ∧
    (calculateImportsScore zeroImportsData).breakdown.performance.details =
      "Aucun import. " ∧
    (calculateImportsScore zeroImportsData).breakdown.bestPractices.score = 3 ∧
    (calculateImportsScore zeroImportsData).improvements ≠ [] := by
  refine ⟨by decide, rfl, by decide, rfl, by decide, by decide⟩

/-- C4: a recognized Lighthouse MIME type overrides a known file extension
in `detectImageFormat` (the own comments of the function announce extension
priority): for `photo.jpg` with MIME `image/png` the result is `png`. -/
theorem c4_mime_overrides_extension :
    detectImageFormat "photo.jpg"
      (some ⟨"https://example.com/photo.jpg", none, some "image/png",
        some "Image"⟩) = "png" ∧ "png" ≠ "jpg" :=
  ⟨rfl, by decide⟩

/-- C5 counterexample: an input whose `unique` color table is present but
empty takes the normal scoring path and gets grade `F`, not `N/A`. -/
theorem c5_empty_unique_not_na :
    (analyzeColors (fun _ => none) (some ⟨some [], 0, 0⟩)).score.grade = "F" ∧
    (analyzeColors (fun _ => none) (some ⟨some [], 0, 0⟩)).score.grade ≠
      "N/A" := by
  have h : (analyzeColors (fun _ => none)
      (some ⟨some [], 0, 0⟩)).score.grade = "F" := by
    show (calculateColorsScore
      ⟨0, 0, [], [], 0, [], ⟨0, 0, 0, 0, 0, 0, 0⟩⟩).grade = "F"
    norm_num [calculateColorsScore, gradeOf, colorsPaletteCriterion,
      colorsConsistencyCriterion, colorsFormatsCriterion, formatCountOf,
      colorsTransparencyCriterion, colorsBestPracticesCriterion]
  exact ⟨h, by rw [h]; decide⟩

/-- C5 (amended): `analyzeColors` returns the all-zero `N/A` score exactly
when the input object or its `unique` table is absent; with a present but
empty `unique` table (and zero totals) it computes a regular score of 57
with grade `F`. -/
theorem c5_zero_colors_grades (pc : ColorParser) (t u : ℕ) :
    ((analyzeColors pc none).score.total = 0 ∧
      (analyzeColors pc none).score.grade = "N/A") ∧
    ((analyzeColors pc (some ⟨none, t, u⟩)).score.total = 0 ∧
      (analyzeColors pc (some ⟨none, t, u⟩)).score.grade = "N/A") ∧
    ((analyzeColors pc (some ⟨some [], 0, 0⟩)).score.total = 57 ∧
      (analyzeColors pc (some ⟨some [], 0, 0⟩)).score.grade = "F") := by
  refine ⟨⟨rfl, rfl⟩, ⟨rfl, rfl⟩, ?_, ?_⟩
  · show (calculateColorsScore
      ⟨0, 0, [], [], 0, [], ⟨0, 0, 0, 0, 0, 0, 0⟩⟩).total = 57
    norm_num [calculateColorsScore, colorsPaletteCriterion,
      colorsConsistencyCriterion, colorsFormatsCriterion, formatCountOf,
      colorsTransparencyCriterion, colorsBestPracticesCriterion]
  · show (calculateColorsScore
      ⟨0, 0, [], [], 0, [], ⟨0, 0, 0, 0, 0, 0, 0⟩⟩).grade = "F"
    norm_num [calculateColorsScore, gradeOf, colorsPaletteCriterion,
      colorsConsistencyCriterion, colorsFormatsCriterion, formatCountOf,
      colorsTransparencyCriterion, colorsBestPracticesCriterion]

/-- C9: on the example scenario of the spec (CSS `.btn .btn__icon .btn--primary
.card`, HTML classes `btn btn__icon btn--primary card unused-thing`) the
block registry has `btn` structured with one element and one modifier,
`card` as an orphan, and `unused-thing` is the one undefined HTML class. -/
theorem c9_example_scenario :
    (computeBemMetrics
      ["btn", "btn__icon", "btn--primary", "card", "unused-thing"]
      ["btn", "btn__icon", "btn--primary", "card"]).blocks =
      [("btn", ⟨["btn__icon"], ["btn--primary"], []⟩),
        ("card", ⟨[], [], []⟩), ("unused-thing", ⟨[], [], []⟩)] ∧
    (computeBemMetrics
      ["btn", "btn__icon", "btn--primary", "card", "unused-thing"]
      ["btn", "btn__icon", "btn--primary", "card"]).blockStructure.structuredBlocks
      = 1 ∧
    (computeBemMetrics
      ["btn", "btn__icon", "btn--primary", "card", "unused-thing"]
      ["btn", "btn__icon", "btn--primary", "card"]).blockStructure.orphanBlocks
      = 2 ∧
    (computeComparisons
      ["btn", "btn__icon", "btn--primary", "card", "unused-thing"]
      ["btn", "btn__icon", "btn--primary", "card"]).undefinedHtmlClasses =
      ["unused-thing"] := by
  refine ⟨?_, ?_, ?_, ?_⟩ <;> rfl

/-- C1 counterexample: a single modern color syntax family yields a
`formats` criterion score of 25 against a declared max of 20. -/
theorem c1_formats_bonus_exceeds_max :
    (calculateColorsScore
      ⟨10, 10, [], [], 0, [], ⟨0, 0, 0, 1, 0, 0, 0⟩⟩).breakdown.formats.score
      = 25 ∧
    (calculateColorsScore
      ⟨10, 10, [], [], 0, [], ⟨0, 0, 0, 1, 0, 0, 0⟩⟩).breakdown.formats.max
      = 20 := by
  refine ⟨by decide, by decide⟩

theorem colorsPaletteCriterion_bounds (n : ℕ) :
    0 ≤ (colorsPaletteCriterion n).score ∧
      (colorsPaletteCriterion n).score ≤ (colorsPaletteCriterion n).max := by
  simp only [colorsPaletteCriterion]
  split_ifs <;> norm_num

theorem colorsConsistencyCriterion_bounds (r : ℚ) :
    0 ≤ (colorsConsistencyCriterion r).score ∧
      (colorsConsistencyCriterion r).score ≤ (colorsConsistencyCriterion r).max := by
  simp only [colorsConsistencyCriterion]
  split_ifs <;> norm_num

theorem colorsFormatsCriterion_bounds (f : ColorFormats) :
    0 ≤ (colorsFormatsCriterion f).score ∧
      (colorsFormatsCriterion f).score ≤ (colorsFormatsCriterion f).max + 5 := by
  simp only [colorsFormatsCriterion]
  split_ifs <;> norm_num

theorem colorsTransparencyCriterion_bounds (r : ℚ) :
    0 ≤ (colorsTransparencyCriterion r).score ∧
      (colorsTransparencyCriterion r).score ≤ (colorsTransparencyCriterion r).max := by
  simp only [colorsTransparencyCriterion]
  split_ifs <;> norm_num

theorem colorsBestPracticesCriterion_bounds (n : ℕ) (b : Bool) :
    0 ≤ (colorsBestPracticesCriterion n b).score ∧
      (colorsBestPracticesCriterion n b).score ≤ (colorsBestPracticesCriterion n b).max := by
  simp only [colorsBestPracticesCriterion]
  split_ifs <;> norm_num

theorem bemCoverageCriterion_bounds (a b : ℚ) :
    0 ≤ (bemCoverageCriterion a b).score ∧
      (bemCoverageCriterion a b).score ≤ (bemCoverageCriterion a b).max := by
  simp only [bemCoverageCriterion]
  split_ifs <;> norm_num

theorem bemSelectorFormsCriterion_bounds (t p : ℕ) :
    0 ≤ (bemSelectorFormsCriterion t p).score ∧
      (bemSelectorFormsCriterion t p).score ≤ (bemSelectorFormsCriterion t p).max := by
  simp only [bemSelectorFormsCriterion]
  split_ifs <;> norm_num

theorem bemStructureCriterion_bounds (t s : ℕ) :
    0 ≤ (bemStructureCriterion t s).score ∧
      (bemStructureCriterion t s).score ≤ (bemStructureCriterion t s).max := by
  simp only [bemStructureCriterion]
  split_ifs <;> norm_num

theorem bemElementsRatioCriterion_bounds (t e : ℕ) :
    0 ≤ (bemElementsRatioCriterion t e).score ∧
      (bemElementsRatioCriterion t e).score ≤ (bemElementsRatioCriterion t e).max := by
  simp only [bemElementsRatioCriterion]
  split_ifs <;> norm_num

theorem bemModifiersCriterion_bounds (t m : ℕ) :
    0 ≤ (bemModifiersCriterion t m).score ∧
      (bemModifiersCriterion t m).score ≤ (bemModifiersCriterion t m).max := by
  simp only [bemModifiersCriterion]
  split_ifs <;> norm_num

/-- C1 (amended): for the colors and BEM scorers, on every input the total
equals the sum of the breakdown scores and every criterion score is
non-negative and at most its declared max — except the colors `formats`
criterion, whose +5 modern-syntax bonus lets it reach max + 5 = 25. -/
theorem c1_score_invariants (d : ColorsScoreData) (b : BemScoreData) :
    ((calculateColorsScore d).total =
        (calculateColorsScore d).breakdown.palette.score +
        (calculateColorsScore d).breakdown.consistency.score +
        (calculateColorsScore d).breakdown.formats.score +
        (calculateColorsScore d).breakdown.transparency.score +
        (calculateColorsScore d).breakdown.bestPractices.score ∧
      (0 ≤ (calculateColorsScore d).breakdown.palette.score ∧
        (calculateColorsScore d).breakdown.palette.score ≤
          (calculateColorsScore d).breakdown.palette.max) ∧
      (0 ≤ (calculateColorsScore d).breakdown.consistency.score ∧
        (calculateColorsScore d).breakdown.consistency.score ≤
          (calculateColorsScore d).breakdown.consistency.max) ∧
      (0 ≤ (calculateColorsScore d).breakdown.formats.score ∧
        (calculateColorsScore d).breakdown.formats.score ≤
          (calculateColorsScore d).breakdown.formats.max + 5) ∧
      (0 ≤ (calculateColorsScore d).breakdown.transparency.score ∧
        (calculateColorsScore d).breakdown.transparency.score ≤
          (calculateColorsScore d).breakdown.transparency.max) ∧
      (0 ≤ (calculateColorsScore d).breakdown.bestPractices.score ∧
        (calculateColorsScore d).breakdown.bestPractices.score ≤
          (calculateColorsScore d).breakdown.bestPractices.max)) ∧
    ((calculateBemClassesScore b).total =
        (calculateBemClassesScore b).breakdown.coverage.score +
        (calculateBemClassesScore b).breakdown.selectorForms.score +
        (calculateBemClassesScore b).breakdown.structureCrit.score +
        (calculateBemClassesScore b).breakdown.elementsRatio.score +
        (calculateBemClassesScore b).breakdown.modifiers.score ∧
      (0 ≤ (calculateBemClassesScore b).breakdown.coverage.score ∧
        (calculateBemClassesScore b).breakdown.coverage.score ≤
          (calculateBemClassesScore b).breakdown.coverage.max) ∧
      (0 ≤ (calculateBemClassesScore b).breakdown.selectorForms.score ∧
        (calculateBemClassesScore b).breakdown.selectorForms.score ≤
          (calculateBemClassesScore b).breakdown.selectorForms.max) ∧
      (0 ≤ (calculateBemClassesScore b).breakdown.structureCrit.score ∧
        (calculateBemClassesScore b).breakdown.structureCrit.score ≤
          (calculateBemClassesScore b).breakdown.structureCrit.max) ∧
      (0 ≤ (calculateBemClassesScore b).breakdown.elementsRatio.score ∧
        (calculateBemClassesScore b).breakdown.elementsRatio.score ≤
          (calculateBemClassesScore b).breakdown.elementsRatio.max) ∧
      (0 ≤ (calculateBemClassesScore b).breakdown.modifiers.score ∧
        (calculateBemClassesScore b).breakdown.modifiers.score ≤
          (calculateBemClassesScore b).breakdown.modifiers.max)) := by
  refine ⟨⟨rfl, ?_, ?_, ?_, ?_, ?_⟩, ⟨rfl, ?_, ?_, ?_, ?_, ?_⟩⟩ <;>
    simp only [calculateColorsScore, calculateBemClassesScore]
  · exact colorsPaletteCriterion_bounds d.uniqueColors
  · exact colorsConsistencyCriterion_bounds _
  · exact colorsFormatsCriterion_bounds d.formats
  · exact colorsTransparencyCriterion_bounds _
  · exact colorsBestPracticesCriterion_bounds _ _
  · exact bemCoverageCriterion_bounds _ _
  · exact bemSelectorFormsCriterion_bounds _ _
  · exact bemStructureCriterion_bounds _ _
  · exact bemElementsRatioCriterion_bounds _ _
  · exact bemModifiersCriterion_bounds _ _

theorem varMatchAt_some_headVar {l : List Char}
    {m : List Char × String × Option String} (h : varMatchAt l = some m) :
    ['v', 'a', 'r', '('].isPrefixOf l = true := by
  unfold varMatchAt at h
  split at h
  next => simp [List.isPrefixOf]
  next => exact absurd h (by simp)

theorem findVarMatch_eq_none {l : List Char}
    (h : listContainsSub ['v', 'a', 'r', '('] l = false) :
    findVarMatch l = none := by
  induction l with
  | nil => rfl
  | cons c cs ih =>
    rw [listContainsSub] at h
    rw [Bool.or_eq_false_iff] at h
    unfold findVarMatch
    cases hv : varMatchAt (c :: cs) with
    | some m => exact absurd (varMatchAt_some_headVar hv) (by simp [h.1])
    | none =>
      simp only
      exact ih h.2

theorem resolveLoop_of_step_none {m : List (String × String)} {s : String}
    (h : resolveStep m s = none) :
    ∀ fuel : ℕ, resolveLoop m fuel s = s := by
  intro fuel
  cases fuel with
  | zero => rfl
  | succ n =>
    unfold resolveLoop
    rw [h]

theorem resolveLoop_iterate (m : List (String × String)) :
    ∀ (fuel : ℕ) (s : String),
      ∃ k, k ≤ fuel ∧ resolveLoop m fuel s = (resolveStepOr m)^[k] s := by
  intro fuel
  induction fuel with
  | zero => exact fun s => ⟨0, Nat.le_refl 0, rfl⟩
  | succ n ih =>
    intro s
    cases hs : resolveStep m s with
    | none =>
      refine ⟨0, Nat.zero_le _, ?_⟩
      rw [resolveLoop_of_step_none hs]
      rfl
    | some next =>
      obtain ⟨k, hk, heq⟩ := ih next
      refine ⟨k + 1, Nat.succ_le_succ hk, ?_⟩
      rw [Function.iterate_succ_apply]
      have hstep : resolveStepOr m s = next := by
        unfold resolveStepOr
        rw [hs]
        rfl
      rw [hstep, ← heq]
      show (match resolveStep m s with
        | none => s
        | some next => resolveLoop m n next) = resolveLoop m n next
      rw [hs]

/-- C6: `resolveVariable` always returns after at most 10 rewrite
iterations (its result is an at-most-10-fold iterate of the single rewrite
step, including on the cyclic pair `--a: var(--b); --b: var(--a)` where it
returns `var(--a)` unchanged after the bound), and a value without any
`var(` occurrence is returned unchanged. -/
theorem c6_resolveVariable_bounded (value : String)
    (cssVariables : List (String × String)) :
    (∃ k, k ≤ maxIterations ∧
      resolveVariable value cssVariables =
        (resolveStepOr cssVariables)^[k] value) ∧
    (strContains value "var(" = false →
      resolveVariable value cssVariables = value) ∧
    resolveVariable "var(--a)" [("--a", "var(--b)"), ("--b", "var(--a)")] =
      "var(--a)" := by
  refine ⟨resolveLoop_iterate cssVariables maxIterations value, ?_, ?_⟩
  · intro h
    have hn : findVarMatch value.data = none := findVarMatch_eq_none h
    have hstep : resolveStep cssVariables value = none := by
      unfold resolveStep
      rw [hn]
    exact resolveLoop_of_step_none hstep maxIterations
  · rfl

/-- C6 witness: at the concrete already-resolved value `red` the hypothesis
holds and the resolver is the identity. -/
theorem c6_resolveVariable_bounded_witness :
    strContains "red" "var(" = false ∧ resolveVariable "red" [] = "red" :=
  ⟨by decide, (c6_resolveVariable_bounded "red" []).2.1 (by decide)⟩

theorem sumFormats_bumpFormat (f : ImgFormats) (fmt : String) :
    sumFormats (bumpFormat f fmt) = sumFormats f + 1 := by
  unfold bumpFormat sumFormats
  split_ifs <;> simp <;> omega

theorem updateImgCounters_delta (acc : ImgCounters) (img : EnrichedImage) :
    (updateImgCounters acc img).imagesWithAlt +
      (updateImgCounters acc img).imagesWithoutAlt =
      acc.imagesWithAlt + acc.imagesWithoutAlt + 1 ∧
    (updateImgCounters acc img).decorativeImages +
      (updateImgCounters acc img).contentImages =
      acc.decorativeImages + acc.contentImages + 1 ∧
    sumFormats (updateImgCounters acc img).formats =
      sumFormats acc.formats + 1 := by
  unfold updateImgCounters
  by_cases hq : evaluateAltQuality img.alt = "missing" <;>
    by_cases hg : evaluateAltQuality img.alt = "good" <;>
    by_cases hp : evaluateAltQuality img.alt = "poor" <;>
    by_cases hd : isDecorativeImage img = true <;>
    by_cases hl : img.hasLazyLoading = true <;>
    simp [hq, hg, hp, hd, hl, sumFormats_bumpFormat] <;>
    omega

theorem foldl_updateImgCounters (l : List EnrichedImage) :
    ∀ acc : ImgCounters,
      ((l.foldl updateImgCounters acc).imagesWithAlt +
        (l.foldl updateImgCounters acc).imagesWithoutAlt =
        acc.imagesWithAlt + acc.imagesWithoutAlt + l.length) ∧
      ((l.foldl updateImgCounters acc).decorativeImages +
        (l.foldl updateImgCounters acc).contentImages =
        acc.decorativeImages + acc.contentImages + l.length) ∧
      (sumFormats (l.foldl updateImgCounters acc).formats =
        sumFormats acc.formats + l.length) := by
  induction l with
  | nil => intro acc; simp
  | cons x xs ih =>
    intro acc
    obtain ⟨h1, h2, h3⟩ := updateImgCounters_delta acc x
    obtain ⟨g1, g2, g3⟩ := ih (updateImgCounters acc x)
    simp only [List.foldl_cons, List.length_cons]
    exact ⟨by omega, by omega, by omega⟩

/-- C10: the counters of `analyzeImages` partition the image list — images
with and without alt sum to the total, decorative and content images sum to
the total, and the format buckets sum to the total, for every resolver,
image list, request list and base URL. -/
theorem c10_analyzeImages_partitions (resolveUrl : UrlResolver)
    (images : List ImageInput) (requests : Option (List NetworkRequest))
    (baseUrl : String) :
    (analyzeImages resolveUrl images requests baseUrl).imagesWithAlt +
      (analyzeImages resolveUrl images requests baseUrl).imagesWithoutAlt =
      (analyzeImages resolveUrl images requests baseUrl).totalImages ∧
    (analyzeImages resolveUrl images requests baseUrl).decorativeImages +
      (analyzeImages resolveUrl images requests baseUrl).contentImages =
      (analyzeImages resolveUrl images requests baseUrl).totalImages ∧
    (analyzeImages resolveUrl images requests baseUrl).formats.avif +
      (analyzeImages resolveUrl images requests baseUrl).formats.webp +
      (analyzeImages resolveUrl images requests baseUrl).formats.jpg +
      (analyzeImages resolveUrl images requests baseUrl).formats.png +
      (analyzeImages resolveUrl images requests baseUrl).formats.svg +
      (analyzeImages resolveUrl images requests baseUrl).formats.gif +
      (analyzeImages resolveUrl images requests baseUrl).formats.unknown =
      (analyzeImages resolveUrl images requests baseUrl).totalImages := by
  have h := foldl_updateImgCounters
    (enrichImagesWithNetworkData resolveUrl images requests baseUrl)
    ⟨0, 0, 0, 0, 0, 0, 0, ⟨0, 0, 0, 0, 0, 0, 0⟩⟩
  obtain ⟨h1, h2, h3⟩ := h
  refine ⟨?_, ?_, ?_⟩
  · exact h1.trans (by simp [analyzeImages])
  · exact h2.trans (by simp [analyzeImages])
  · exact h3.trans (by simp [sumFormats, analyzeImages])

theorem take_min_length {α : Type} (n : ℕ) (l : List α) :
    l.take (min n l.length) = l.take n := by
  rcases Nat.le_total n l.length with h | h
  · rw [Nat.min_eq_left h]
  · rw [Nat.min_eq_right h, List.take_length, List.take_of_length_le h]

theorem toFixed2_zero : toFixed2 0 = 0 := by
  norm_num [toFixed2, jsRound]

/-- C7: synthesizing over a single page reproduces the score of that page — the
global score of `synthesizeImagesAnalysis` on one page equals the score
`analyzeImages` computed for the page, because the score is a pure function
of the aggregated counters. -/
theorem c7_synthesize_single_page (resolveUrl : UrlResolver)
    (images : List ImageInput) (requests : Option (List NetworkRequest))
    (baseUrl : String) (f t : Option String) :
    (synthesizeImagesAnalysis
      [⟨f, t, some (analyzeImages resolveUrl images requests baseUrl)⟩]).globalScore
      = (analyzeImages resolveUrl images requests baseUrl).score := by
  set a := analyzeImages resolveUrl images requests baseUrl with ha
  have hscore : a.score = calculateImagesScore a.toImagesScoreData := rfl
  have havg : a.averageWeight = averageOfWeights (imageWeights a.images) := rfl
  have htop5 : a.top5AverageWeight =
    averageOfWeights ((sortDescInt (imageWeights a.images)).take 5) := rfl
  have hdr : a.decorativeRatio = toFixed2
    (if a.totalImages > 0 then (a.decorativeImages : ℚ) / a.totalImages
      else 0) := rfl
  have hback : a.toImagesScoreData =
    ⟨a.totalImages, a.imagesWithAlt, a.imagesWithoutAlt, a.imagesWithGoodAlt,
      a.imagesWithPoorAlt, a.decorativeImages, a.contentImages,
      a.imagesWithLazyLoading, a.averageWeight, a.top5AverageWeight,
      a.formats, a.decorativeRatio⟩ := rfl
  have hsyn : (synthesizeImagesAnalysis [⟨f, t, some a⟩]).globalScore =
    calculateImagesScore ⟨0 + a.totalImages, 0 + a.imagesWithAlt,
      0 + a.imagesWithoutAlt, 0 + a.imagesWithGoodAlt, 0 + a.imagesWithPoorAlt,
      0 + a.decorativeImages, 0 + a.contentImages, 0 + a.imagesWithLazyLoading,
      averageOfWeights ([] ++ imageWeights a.images),
      averageOfWeights ((sortDescInt ([] ++ imageWeights a.images)).take
        (min 5 (sortDescInt ([] ++ imageWeights a.images)).length)),
      ⟨0 + a.formats.avif, 0 + a.formats.webp, 0 + a.formats.jpg,
        0 + a.formats.png, 0 + a.formats.svg, 0 + a.formats.gif,
        0 + a.formats.unknown⟩,
      if 0 + a.totalImages > 0 then
        toFixed2 (((0 + a.decorativeImages : ℕ) : ℚ) /
          ((0 + a.totalImages : ℕ) : ℚ))
      else 0⟩ := rfl
  rw [hsyn, hscore, hback]
  congr 1
  simp only [ImagesScoreData.mk.injEq, ImgFormats.mk.injEq, Nat.zero_add,
    List.nil_append, take_min_length, Nat.cast_id, true_and, and_true,
    and_self, eq_self_iff_true]
  rw [hdr]
  by_cases hpos : a.totalImages > 0
  · simp [hpos]
    exact ⟨havg.symm, htop5.symm⟩
  · simp [hpos, toFixed2_zero]
    exact ⟨havg.symm, htop5.symm⟩

end ProjAnalysis
